import Mathlib

/-!
Verification development for the `rxn_rdf_converter` reaction-record to RDF
converter.  The Python source (src/src/rxn_rdf_converter.py) is shallowly
embedded below: dictionaries of flattened reaction fields become association
lists over a small Python-value type, the cheminformatics library (RDKit) and
the ontology library (owlready2) become explicit collaborator structures, and
exceptions become explicit error values.  The nondeterministic iteration order
of Python's `set` (visible through `list(set(...))` in `_extract_index_set`)
is modelled by an explicit ordering parameter.
-/

namespace RxnRdf

/-- Scalar values stored in the flattened dictionaries: Python's `None`,
booleans, integers and strings.  Floating point values that the converter only
carries through opaquely are represented by their string form. -/
inductive PyVal where
  | none
  | b (v : Bool)
  | i (v : Int)
  | s (v : String)
  deriving DecidableEq

/-- Python truthiness of a stored value. -/
def PyVal.truthy : PyVal → Bool
  | .none => false
  | .b v => v
  | .i v => v != 0
  | .s v => v != ""

/-- Python `str()` of a stored value, as used by f-string formatting. -/
def PyVal.pyStr : PyVal → String
  | .none => "None"
  | .b true => "True"
  | .b false => "False"
  | .i v => toString v
  | .s v => v

/-- A flattened field map: an insertion-ordered Python dict from structural
path strings to scalar values. -/
abbrev Dict := List (String × PyVal)

/-- `d.get k` - `d.get(k)` in Python (`None`-free lookup of the first
matching entry). -/
def Dict.get? : Dict → String → Option PyVal
  | [], _ => Option.none
  | kv :: t, k => if kv.1 = k then some kv.2 else Dict.get? t k

/-- `k in d` in Python. -/
def Dict.hasKey : Dict → String → Bool
  | [], _ => false
  | kv :: t, k => kv.1 = k || Dict.hasKey t k

/-- `d[k]` in Python where the caller relies on the key being present;
absent keys are surfaced by the caller as a raised `KeyError`. -/
def Dict.getD (d : Dict) (k : String) : PyVal :=
  match d.get? k with
  | some v => v
  | none => PyVal.none

/-- `d[k] = v` in Python: replace in place if present, else append at the
end (dictionaries built by the converter never carry a duplicate key, so
replacing the first occurrence is the Python behavior). -/
def Dict.set : Dict → String → PyVal → Dict
  | [], k, v => [(k, v)]
  | kv :: t, k, v => if kv.1 = k then (k, v) :: t else kv :: Dict.set t k v

/-- `d.update(kvs)` in Python. -/
def Dict.updateMany : Dict → Dict → Dict
  | d, [] => d
  | d, kv :: t => Dict.updateMany (d.set kv.1 kv.2) t

/-- Iteration order of `d.keys()`. -/
def Dict.keyList (d : Dict) : List String := d.map (fun kv => kv.1)

/-- `{f: None for f in fields}`. -/
def fieldsNone (fields : List String) : Dict :=
  fields.map (fun f => (f, PyVal.none))

/-- Exceptions raised by the embedded code. -/
inductive Err where
  | keyErr (k : String)
  | attrErr (a : String)
  | argErr (m : String)
  | nameErr (m : String)
  | valueErr (m : String)
  | indexErr (m : String)
  deriving DecidableEq

/-! ## Index extraction (`_extract_index_set`)

A compiled single-group regex is modelled as a capture function
`String → Option String` (`None` = no match, `some c` = the text of capture
group 1).  The iteration order of `list(set(...))` on strings is a parameter
`o`; `ValidOrder o` says `o l` enumerates the distinct members of `l` in some
order, which is exactly what a Python `set` of strings guarantees. -/

/-- An extracted index: a parsed non-negative integer or a textual capture. -/
inductive Idx where
  | num (n : Nat)
  | str (s : String)
  deriving DecidableEq

/-- f-string formatting of an extracted index. -/
def Idx.fmt : Idx → String
  | .num n => toString n
  | .str s => s

/-- Python's `str.isdigit` restricted to the ASCII digits that the source's
patterns can capture. -/
def pyIsDigit (s : String) : Bool :=
  s ≠ "" && s.toList.all Char.isDigit

/-- `int(s)` on an all-digit string. -/
def strToNat (s : String) : Nat :=
  s.toList.foldl (fun n c => n * 10 + (c.toNat - 48)) 0

/-- `sorted(set(l))` for integer indices. -/
def sortedDedup (l : List Nat) : List Nat :=
  l.toFinset.sort (· ≤ ·)

/-- A possible iteration order of `list(set(l))` for string elements. -/
def ValidOrder (o : List String → List String) : Prop :=
  ∀ l : List String, (o l).Nodup ∧ ∀ s, s ∈ o l ↔ s ∈ l

/-- Python's `list(set(...))` realized as first-kept deduplication - one
valid set-iteration order. -/
def pyDedup : List String → List String := fun l => l.dedup

/-- The same set enumerated backwards - an equally valid iteration order
(e.g. under a different `PYTHONHASHSEED`). -/
def pyDedupRev : List String → List String := fun l => l.dedup.reverse

/-- `_extract_index_set(item_dict, pattern)`: classify every capture as
numeric or textual; numeric captures win and are returned sorted and
deduplicated, otherwise the deduplicated textual captures are returned in the
set-iteration order `o`. -/
def extract_index_set (o : List String → List String)
    (cap : String → Option String) (d : Dict) : List Idx :=
  let caps := d.keyList.filterMap cap
  let numeric_indices := (caps.filter pyIsDigit).map strToNat
  let string_indices := caps.filter (fun c => !pyIsDigit c)
  if numeric_indices ≠ [] then (sortedDedup numeric_indices).map Idx.num
  else if string_indices ≠ [] then (o string_indices).map Idx.str
  else []

/-! Concrete matchers for the regex patterns the converter compiles.
`re.match` anchors at the start of the key only. -/

/-- Split a leading run of ASCII digits. -/
def takeDigits : List Char → List Char × List Char
  | [] => ([], [])
  | c :: cs =>
    if c.isDigit then
      let p := takeDigits cs
      (c :: p.1, p.2)
    else ([], c :: cs)

/-- Strip an expected leading character sequence, returning the remainder;
`re.match` anchoring at the start of the string. -/
def pfxDrop : List Char → List Char → Option (List Char)
  | [], cs => some cs
  | _ :: _, [] => Option.none
  | p :: ps, c :: cs => if c = p then pfxDrop ps cs else Option.none

/-- Matcher for `^LEAD(\d+)\]` (e.g. `^components\[(\d+)\]` with
`LEAD = "components["`): a nonempty digit run after `LEAD`, followed by `]`. -/
def capNumBracket (lead : String) (key : String) : Option String :=
  match pfxDrop lead.toList key.toList with
  | some rest =>
    let p := takeDigits rest
    if p.1 ≠ [] ∧ p.2.head? = some ']' then some (String.mk p.1) else Option.none
  | Option.none => Option.none

/-- Matcher for `^LEAD(\d+)\]\.(.+)$`: digit run, then `].`, then at least one
further character; capture group 1 (the digits) is the one the source uses. -/
def capNumBracketDot (lead : String) (key : String) : Option String :=
  match pfxDrop lead.toList key.toList with
  | some rest =>
    let p := takeDigits rest
    if p.1 ≠ [] ∧ p.2.head? = some ']' ∧ p.2.tail.head? = some '.' ∧ p.2.tail.tail ≠ [] then
      some (String.mk p.1)
    else Option.none
  | Option.none => Option.none

/-- Take characters up to (excluding) the first `"`; fails if none occurs. -/
def takeToQuote : List Char → Option (List Char × List Char)
  | [] => Option.none
  | c :: cs =>
    if c = '"' then some ([], cs)
    else match takeToQuote cs with
      | some p => some (c :: p.1, p.2)
      | Option.none => Option.none

/-- Matcher for `^LEAD([^"]*)"\]` (e.g. `^analyses\["([^"]*)"\]` with
`LEAD = "analyses[\x22"`): capture up to the closing quote, then `]`. -/
def capQuoted (lead : String) (key : String) : Option String :=
  match pfxDrop lead.toList key.toList with
  | some rest =>
    match takeToQuote rest with
    | some p => if p.2.head? = some ']' then some (String.mk p.1) else Option.none
    | Option.none => Option.none
  | Option.none => Option.none

/-! ## The cheminformatics collaborator (RDKit)

`StructureHandle`s are opaque; a handle is modelled as the string RDKit would
canonicalize from.  Parsing returns `none` exactly when RDKit returns a null
molecule.  Calling a converter on a null molecule raises, as RDKit's
Boost-wrapped functions do. -/

structure ChemTool where
  parseInchi : String → Option String
  parseSmiles : String → Option String
  toSmiles : String → String
  toInchi : String → String
  toInchiKey : String → String
  toCXSmiles : String → String

/-- `Chem.MolFrom...(x)` where `x` is a dictionary value: a non-string
argument raises an `ArgumentError`. -/
def molFrom (parse : String → Option String) : PyVal → Except Err (Option String)
  | .s v => .ok (parse v)
  | _ => .error (.argErr "MolFrom: not a string")

/-- `Chem.MolTo...(mol)` where `mol` may be Python `None`: RDKit raises on a
null molecule. -/
def molTo (conv : String → String) : Option String → Except Err String
  | some m => .ok (conv m)
  | Option.none => .error (.argErr "MolTo: molecule is None")

/-- `DESCRIPTOR.fields_by_name` of the ORD `CompoundIdentifier` message. -/
def compoundIdentifierFields : List String := ["type", "details", "value"]

/-- One ORD compound-identifier message, reduced to its `message_to_row`
image (the declared fields actually set on the message). -/
structure CompoundIdentifierMsg where
  row : Dict
  deriving DecidableEq

/-- The derived-identifier dictionary literal
`{'type': t, 'details': None, 'value': v}`. -/
def derivedIdentifier (t v : String) : Dict :=
  [("type", PyVal.s t), ("details", PyVal.none), ("value", PyVal.s v)]

/-- One iteration of the dictionary-building loop of
`generate_compound_identifiers`: a row without a `type` entry raises. -/
def gciStep (acc : Except Err (List Dict × List PyVal))
    (idm : CompoundIdentifierMsg) : Except Err (List Dict × List PyVal) :=
  match acc with
  | .error e => Except.error e
  | .ok (lst, types) =>
    match idm.row.get? "type" with
    | Option.none => Except.error (Err.keyErr "type")
    | some t =>
      .ok (lst ++ [(fieldsNone compoundIdentifierFields).updateMany idm.row],
           types ++ [t])

/-- The `identifier_list` / `desired_type` pair built by the first loop. -/
def gciBuild (identifiers : List CompoundIdentifierMsg) :
    Except Err (List Dict × List PyVal) :=
  identifiers.foldl gciStep (.ok ([], []))

/-- `next((item['value'] for item in lst if item['type'] == ty), None)`. -/
def gciFirstValue (lst : List Dict) (ty : String) : PyVal :=
  match lst.find? (fun d => d.getD "type" == PyVal.s ty) with
  | some d => d.getD "value"
  | Option.none => PyVal.none

/-- `generate_compound_identifiers(identifiers)`: build the per-identifier
dictionaries, pick the highest-priority structure identifier
(INCHI_KEY > INCHI > SMILES), derive the missing encodings through RDKit, tag
every dictionary with the resolved key, and return the list with the key. -/
def generate_compound_identifiers (chem : ChemTool)
    (identifiers : List CompoundIdentifierMsg) :
    Except Err (List Dict × PyVal) := do
  match gciBuild identifiers with
  | .error e => Except.error e
  | .ok (identifier_list, desired_type) =>
    let firstValue := fun (ty : String) => gciFirstValue identifier_list ty
    let finish := fun (lst : List Dict) (inchi_key : PyVal) =>
      Except.ok (lst.map (fun d => d.set "INCHI_KEY" inchi_key), inchi_key)
    if desired_type.contains (PyVal.s "INCHI_KEY") then
      finish identifier_list (firstValue "INCHI_KEY")
    else if desired_type.contains (PyVal.s "INCHI") then do
      let rdkit_mol ← molFrom chem.parseInchi (firstValue "INCHI")
      let withKey :=
        match rdkit_mol with
        | some m =>
          (identifier_list ++ [derivedIdentifier "INCHI_KEY" (chem.toInchiKey m)],
           PyVal.s (chem.toInchiKey m))
        | Option.none => (identifier_list, PyVal.none)
      if desired_type.contains (PyVal.s "SMILES") then
        finish withKey.1 withKey.2
      else do
        let smi ← molTo chem.toSmiles rdkit_mol
        finish (withKey.1 ++ [derivedIdentifier "SMILES" smi]) withKey.2
    else if desired_type.contains (PyVal.s "SMILES") then do
      let rdkit_mol ← molFrom chem.parseSmiles (firstValue "SMILES")
      let withKey :=
        match rdkit_mol with
        | some m =>
          (identifier_list ++ [derivedIdentifier "INCHI" (chem.toInchi m),
                               derivedIdentifier "INCHI_KEY" (chem.toInchiKey m)],
           PyVal.s (chem.toInchiKey m))
        | Option.none => (identifier_list, PyVal.none)
      if desired_type.contains (PyVal.s "CXSMILES") then
        finish withKey.1 withKey.2
      else do
        let cx ← molTo chem.toCXSmiles rdkit_mol
        finish (withKey.1 ++ [derivedIdentifier "CXSMILES" cx]) withKey.2
    else
      finish identifier_list PyVal.none

/-! ## The ontology collaborator (owlready2)

Per the external contract, the loaded ontology provides enumerable object /
annotation / data properties, each with a primary label and an IRI, and
constructible classes (`ClassName(localName)` yields an instance with an
`.iri` and a type IRI).  Units are entities of the QUDT unit namespace;
attribute access for a unit no present in the loaded ontology yields Python
`None` (whose `.iri` then raises). -/

def mdsBase : String := "https://cwrusdle.bitbucket.io/mds/"
def ccoBase : String := "https://www.commoncoreontologies.org/"
def oboBase : String := "http://purl.obolibrary.org/obo/"
def unitBase : String := "http://qudt.org/vocab/unit/"

structure Onto where
  objectProps : List (String × String)
  annotationProps : List (String × String)
  dataProps : List (String × String)
  classIri : String → String
  classLabel : String → String
  unitEnt : String → Option String
  reprName : String → String

/-- A minted graph instance: its IRI, the IRI of the class it instantiates
(`is_instance_of[0].iri`), and its `str()` representation. -/
structure Inst where
  iri : String
  clsIri : String
  rpr : String
  deriving DecidableEq

/-- `namespace.ClassName(name)`: the individual's IRI is the accessor
namespace's base followed by the local name. -/
def mintInst (o : Onto) (base cls name : String) : Inst :=
  { iri := base ++ name, clsIri := o.classIri cls, rpr := o.reprName name }

/-- A value of the `unit_mapping` dictionary: an ontology entity, Python
`None` (entity not found), or the stray string built for `KPSI`. -/
inductive UnitVal where
  | ent (iri : String)
  | noneV
  | strV (s : String)
  deriving DecidableEq

/-- `self.unit.NAME` attribute access. -/
def unitAttr (o : Onto) (n : String) : UnitVal :=
  match o.unitEnt n with
  | some i => UnitVal.ent i
  | Option.none => UnitVal.noneV

/-- The `unit_mapping` dictionary of `_initialize_instance_dict`. -/
def unit_mapping (o : Onto) : List (String × UnitVal) :=
  [("CELSIUS", unitAttr o "DEG_C"), ("FAHRENHEIT", unitAttr o "DEG_F"),
   ("KELVIN", unitAttr o "K"),
   ("KILOGRAM", unitAttr o "KiloGM"), ("GRAM", unitAttr o "GM"),
   ("MILLIGRAM", unitAttr o "MilliGM"), ("MICROGRAM", unitAttr o "MicroGM"),
   ("MOLE", unitAttr o "MOL"), ("MILLIMOLE", unitAttr o "MilliMOL"),
   ("MICROMOLE", unitAttr o "MicroMOL"), ("NANOMOLE", unitAttr o "NanoMOL"),
   ("LITER", unitAttr o "L"), ("MILLILITER", unitAttr o "MilliL"),
   ("MICROLITER", unitAttr o "MicroL"), ("NANOLITER", unitAttr o "NanoL"),
   ("BAR", unitAttr o "BAR"), ("ATMOSPHERE", unitAttr o "ATM"),
   ("PSI", unitAttr o "PSI"),
   ("KPSI", UnitVal.strV "KiloLB_F-PER-IN2"),
   ("PASCAL", unitAttr o "PA"), ("KILOPASCAL", unitAttr o "KiloPA"),
   ("TORR", unitAttr o "TORR"), ("MM_HG", unitAttr o "MilliM_HG"),
   ("DAY", unitAttr o "DAY"), ("HOUR", unitAttr o "HR"),
   ("MINUTE", unitAttr o "MIN"), ("SECOND", unitAttr o "SEC"),
   ("PERCENTAGE", unitAttr o "PERCENT")]

/-- `self.unit_mapping[v].iri`: a `KeyError` for unknown unit names (or a
non-string key), an `AttributeError` for a unit whose entity is `None` or the
stray `KPSI` string. -/
def unitLookup (um : List (String × UnitVal)) (v : PyVal) : Except Err String :=
  match v with
  | .s k =>
    match um.find? (fun kv => kv.1 == k) with
    | some (_, UnitVal.ent iri) => .ok iri
    | some (_, _) => .error (.attrErr "iri")
    | Option.none => .error (.keyErr k)
  | v => .error (.keyErr v.pyStr)

/-! ## Assertion accumulation

`self.instance_dict` maps property labels to append-only lists of
`[subject, object]` pairs.  Since its key set is fixed at initialization and
the passes only ever append, the dictionary is represented by that key set
plus the chronological list of appends (label, first item, second item).
Appending to a label not in the key set is the `KeyError` the source raises.
An emission computation returns the appends performed before its first
uncaught exception, Python-style. -/

abbrev Contrib := String × PyVal × PyVal
abbrev ER := List Contrib × Option Err

def erOk : ER := ([], Option.none)
def raiseER (e : Err) : ER := ([], some e)

/-- Sequencing: the second computation runs only if the first did not raise;
appends made before a raise are kept. -/
def seqER (a b : ER) : ER :=
  match a.2 with
  | Option.none => (a.1 ++ b.1, b.2)
  | some _ => a

def listER (l : List ER) : ER := l.foldl seqER erOk

def guardER (c : Bool) (a : ER) : ER := if c then a else erOk

/-- `self.instance_dict[lbl].append([a, b])` given the (possibly missing)
attribute holding the key set. -/
def emit (L : Option (List String)) (lbl : String) (a b : PyVal) : ER :=
  match L with
  | Option.none => raiseER (.attrErr "instance_dict")
  | some ls => if lbl ∈ ls then ([(lbl, a, b)], Option.none) else raiseER (.keyErr lbl)

/-- Shorthand for the ubiquitous `[x.iri, y.iri]`-shaped appends. -/
def emitII (L : Option (List String)) (lbl : String) (a b : String) : ER :=
  emit L lbl (PyVal.s a) (PyVal.s b)

/-! ## `_initialize_instance_dict` -/

/-- The label → (IRI, kind) catalog: object properties, then annotation
properties, then datatype properties, then the synthetic `type` entry; a
repeated label is overwritten in place, Python-dict style. -/
def pmSet (d : List (String × String × String)) (k : String) (v : String × String) :
    List (String × String × String) :=
  if d.any (fun kv => kv.1 == k) then
    d.map (fun kv => if kv.1 == k then (k, v.1, v.2) else kv)
  else d ++ [(k, v.1, v.2)]

def propMetaOf (o : Onto) : List (String × String × String) :=
  let step := fun (kind : String) (acc : List (String × String × String))
      (p : String × String) => pmSet acc p.1 (p.2, kind)
  pmSet
    ((o.dataProps.foldl (step "Datatype Property")
      ((o.annotationProps.foldl (step "Annotation Property")
        ((o.objectProps.foldl (step "Object Property")) []))))
    ) "type" ("http://www.w3.org/1999/02/22-rdf-syntax-ns#type", "Object Property")

/-- The key set of `self.instance_dict` (only membership is ever consulted):
one key per ontology property label plus `type`. -/
def instanceDictLabels (o : Onto) : List String :=
  (o.objectProps ++ o.annotationProps ++ o.dataProps).map (fun p => p.1) ++ ["type"]

/-- The per-reaction builder state after `_initialize_instance_dict` ran (or
failed partway): each attribute the method sets is `none` until the line
assigning it executed, so a later access of an unset attribute raises. -/
structure KGInit where
  labels : Option (List String) := Option.none
  initContribs : List Contrib := []
  propMeta : Option (List (String × String × String)) := Option.none
  unitMap : Option (List (String × UnitVal)) := Option.none
  onto : Option Onto := Option.none
  chemical_reaction : Option Inst := Option.none
  reaction_mixture : Option Inst := Option.none
  reaction_environment : Option Inst := Option.none
  crude_product : Option Inst := Option.none

/-- `_initialize_instance_dict(mds_file_path)`.  `loadOnto` is the outcome of
`get_ontology(path).load()`.  On load failure nothing is assigned and the
exception propagates to the caller; afterwards the namespaces, unit mapping,
catalog and key set are built, the four core instances are minted, and the
seven baseline assertions are appended. -/
def initialize_instance_dict (loadOnto : Except String Onto) (rid : String) :
    KGInit × Option Err :=
  match loadOnto with
  | .error m => ({}, some (.valueErr m))
  | .ok o =>
    let L := instanceDictLabels o
    let cr := mintInst o mdsBase "ChemicalReaction" ("ChemicalReaction#" ++ rid)
    let rm := mintInst o mdsBase "ReactionMixture" ("ReactionMixture#" ++ rid)
    let re := mintInst o mdsBase "ReactionEnvironment" ("ReactionEnvironment#" ++ rid)
    let cp := mintInst o mdsBase "CrudeProduct" ("CrudeProduct#" ++ rid)
    let er := listER [
      emitII (some L) "type" cr.iri cr.clsIri,
      emitII (some L) "type" rm.iri rm.clsIri,
      emitII (some L) "type" re.iri re.clsIri,
      emitII (some L) "type" cp.iri cp.clsIri,
      emitII (some L) "is input of" rm.iri cr.iri,
      emitII (some L) "environs" re.iri cr.iri,
      emitII (some L) "has output" cr.iri cp.iri]
    ({ labels := some L, initContribs := er.1, propMeta := some (propMetaOf o),
       unitMap := some (unit_mapping o), onto := some o,
       chemical_reaction := some cr, reaction_mixture := some rm,
       reaction_environment := some re, crude_product := some cp }, er.2)

/-! ## The reaction record (`ord_schema` protocol-buffer messages)

Each message is reduced to what the converter reads from it: its
`message_to_row` image, the repeated sub-messages the converter walks
explicitly, and the truthiness of the optional sub-messages it probes.  The
`DESCRIPTOR.fields_by_name` lists are fixed schema data. -/

def reactionIdentifierFields : List String := ["type", "details", "value", "is_mapped"]
def inputFields : List String :=
  ["components", "crude_components", "addition_order", "addition_time",
   "addition_speed", "addition_duration", "flow_rate", "addition_device",
   "addition_temperature", "texture"]
def setupFields : List String :=
  ["vessel", "is_automated", "automation_platform", "automation_code", "environment"]
def conditionsFields : List String :=
  ["temperature", "pressure", "stirring", "illumination", "electrochemistry",
   "flow", "reflux", "ph", "conditions_are_dynamic", "details"]
def notesFields : List String :=
  ["is_heterogeneous", "forms_precipitate", "is_exothermic", "offgasses",
   "is_sensitive_to_moisture", "is_sensitive_to_oxygen", "is_sensitive_to_light",
   "safety_notes", "procedure_details"]
def workupFields : List String :=
  ["type", "details", "duration", "input", "amount", "temperature",
   "keep_phase", "stirring", "target_ph", "is_automated"]
def outcomeFields : List String :=
  ["reaction_time", "conversion", "products", "analyses"]

structure ComponentMsg where
  identifiers : List CompoundIdentifierMsg
  amountPresent : Bool := false
  amountKind : Option String := Option.none

structure InputMsg where
  key : String
  row : Dict := []
  components : List ComponentMsg := []
  crude_components : Bool := false
  addition_time : Bool := false
  addition_speed : Bool := false
  addition_duration : Bool := false
  addition_device : Bool := false
  addition_temperature : Bool := false
  flow_rate : Bool := false
  texture : Bool := false

structure WorkupMsg where
  row : Dict := []
  inputPresent : Bool := false
  inputComponents : List ComponentMsg := []
  amountPresent : Bool := false
  amountKind : Option String := Option.none
  duration : Bool := false
  temperature : Bool := false
  stirring : Bool := false

structure OutcomeMsg where
  row : Dict := []
  reaction_time : Bool := false
  analyses : Bool := false
  conversion : Bool := false
  products : List ComponentMsg := []

structure ReactionIdentifierMsg where
  row : Dict

structure ReactionMsg where
  reaction_id : String
  identifiers : List ReactionIdentifierMsg := []
  inputs : List InputMsg := []
  setupRow : Dict := []
  vessel : Bool := false
  environment : Bool := false
  conditionsRow : Dict := []
  temperature : Bool := false
  pressure : Bool := false
  stirring : Bool := false
  electrochemistry : Bool := false
  flow : Bool := false
  illumination : Bool := false
  notesRow : Dict := []
  workups : List WorkupMsg := []
  outcomes : List OutcomeMsg := []

/-- Split a character list at every occurrence of a separator character. -/
def splitChar (c : Char) : List Char → List (List Char)
  | [] => [[]]
  | a :: t =>
    match splitChar c t with
    | [] => [[]]
    | h :: r => if a = c then [] :: h :: r else (a :: h) :: r

/-- `re.split('-', reaction_pb.reaction_id)[1]` in `ReactionKG.__init__`;
an id without a dash raises an `IndexError`. -/
def reactionKGId (msg : ReactionMsg) : Except Err String :=
  match ((splitChar '-' msg.reaction_id.toList).map String.mk).get? 1 with
  | some r => .ok r
  | Option.none => .error (.indexErr "list index out of range")

/-! ## `generate_reaction` (record flattening) -/

/-- The flattened section lists that `generate_reaction` populates. -/
structure FlatState where
  rid : String
  reaction_identifiers : List Dict := []
  reaction_inputs : List Dict := []
  reaction_setup : List Dict := []
  reaction_conditions : List Dict := []
  reaction_notes : List Dict := []
  reaction_workups : List Dict := []
  reaction_outcomes : List Dict := []

/-- Error-propagating left fold (a Python `for` over fallible work). -/
def foldE {α β : Type} (f : β → α → Except Err β) (init : β) (l : List α) :
    Except Err β :=
  l.foldl (fun acc a =>
    match acc with
    | .error e => Except.error e
    | .ok b => f b a) (.ok init)

/-- `True if x else None`. -/
def flagVal (b : Bool) : PyVal := if b then PyVal.b true else PyVal.none

/-- `WhichOneof('kind')` as a dictionary value. -/
def optVal : Option String → PyVal
  | some s => PyVal.s s
  | Option.none => PyVal.none

/-- The normalized `InputKey`: the map key with all whitespace removed
(`strip()` followed by `re.sub(r'\s+', '', ...)` when any remains). -/
def stripWs (s : String) : String :=
  String.mk (s.toList.filter (fun c => !c.isWhitespace))

/-- Flatten one reaction identifier. -/
def flattenIdentifier (rid : String) (m : ReactionIdentifierMsg) : Dict :=
  (Dict.updateMany (Dict.updateMany [("reactionID", PyVal.s rid)]
    (fieldsNone reactionIdentifierFields)) m.row)

/-- Flatten one named reaction input, including the per-component canonical
key and amount kind recorded by `generate_compound_identifiers`. -/
def flattenInput (chem : ChemTool) (rid : String) (m : InputMsg) :
    Except Err Dict := do
  let input_string := stripWs m.key
  let d := Dict.updateMany (Dict.updateMany
    [("reactionID", PyVal.s rid), ("InputKey", PyVal.s input_string)]
    (fieldsNone inputFields)) m.row
  let d := d.set "components" (flagVal (!m.components.isEmpty))
  let d := d.set "crude_components" (flagVal m.crude_components)
  let d := d.set "addition_time" (flagVal m.addition_time)
  let d := d.set "addition_speed" (flagVal m.addition_speed)
  let d := d.set "addition_duration" (flagVal m.addition_duration)
  let d := d.set "addition_device" (flagVal m.addition_device)
  let d := d.set "addition_temperature" (flagVal m.addition_temperature)
  let d := d.set "flow_rate" (flagVal m.flow_rate)
  let d := d.set "texture" (flagVal m.texture)
  foldE (fun d (ic : Nat × ComponentMsg) => do
      let p ← generate_compound_identifiers chem ic.2.identifiers
      let d := if p.2.truthy then
          d.set ("components[" ++ toString ic.1 ++ "].INCHI_KEY") p.2
        else d
      let d := if ic.2.amountPresent then
          d.set ("components[" ++ toString ic.1 ++ "].amount.type") (optVal ic.2.amountKind)
        else d
      return d)
    d m.components.enum

/-- The per-component inner loop of the workup flattening: record the
canonical key (even when `None`) and set the constant `InputKey`. -/
def flattenWorkupComponents (chem : ChemTool) (d : Dict)
    (comps : List (Nat × ComponentMsg)) : Except Err Dict :=
  foldE (fun b ic =>
    match generate_compound_identifiers chem ic.2.identifiers with
    | .error e => .error e
    | .ok p =>
      .ok ((b.set ("input.components[" ++ toString ic.1 ++ "].INCHI_KEY") p.2).set
        "InputKey" (PyVal.s ("workup_" ++ toString 0)))) d comps

/-- Flatten one workup step: its `Index`, presence flags, and - for steps
with embedded input components - the per-component canonical key and the
constant `InputKey` `"workup_0"`. -/
def flattenWorkup (chem : ChemTool) (rid : String) (iw : Nat × WorkupMsg) :
    Except Err Dict :=
  let w := iw.2
  let d := Dict.updateMany (Dict.updateMany
    [("reactionID", PyVal.s rid), ("Index", PyVal.i iw.1)]
    (fieldsNone workupFields)) w.row
  match (if w.inputPresent then
      flattenWorkupComponents chem (d.set "input" (PyVal.b true)) w.inputComponents.enum
    else .ok d) with
  | .error e => .error e
  | .ok d2 =>
    let d3 := if w.amountPresent then
        (d2.set "amount" (PyVal.b true)).set "amount.type" (optVal w.amountKind)
      else d2
    let d4 := if w.duration then d3.set "duration" (PyVal.b true) else d3
    let d5 := if w.temperature then d4.set "temperature" (PyVal.b true) else d4
    .ok (if w.stirring then d5.set "stirring" (PyVal.b true) else d5)

/-- Flatten one reaction outcome, recording each product's canonical key. -/
def flattenOutcome (chem : ChemTool) (rid : String) (io : Nat × OutcomeMsg) :
    Except Err Dict := do
  let o := io.2
  let d := Dict.updateMany (Dict.updateMany
    [("reactionID", PyVal.s rid), ("Index", PyVal.i io.1)]
    (fieldsNone outcomeFields)) o.row
  let d := if o.reaction_time then d.set "reaction_time" (PyVal.b true) else d
  let d := if o.analyses then d.set "analyses" (PyVal.b true) else d
  let d := if o.conversion then d.set "conversion" (PyVal.b true) else d
  if !o.products.isEmpty then
    let d := d.set "products" (PyVal.b true)
    foldE (fun d (ip : Nat × ComponentMsg) => do
        let p ← generate_compound_identifiers chem ip.2.identifiers
        return d.set ("products[" ++ toString ip.1 ++ "].INCHI_KEY") p.2)
      d o.products.enum
  else
    return d

/-- `generate_reaction()`: flatten every section into its list.  Exceptions
from identifier derivation propagate to the caller - this method has no
handler of its own. -/
def generate_reaction (chem : ChemTool) (rid : String) (msg : ReactionMsg) :
    Except Err FlatState := do
  let ids := msg.identifiers.map (flattenIdentifier rid)
  let ins ← foldE (fun l m => do
      let d ← flattenInput chem rid m
      return l ++ [d]) [] msg.inputs
  let setup_dict := Dict.updateMany (Dict.updateMany [("reactionID", PyVal.s rid)]
    (fieldsNone setupFields)) msg.setupRow
  let setup_dict := if msg.vessel then setup_dict.set "vessel" (PyVal.b true) else setup_dict
  let setup_dict := if msg.environment then setup_dict.set "environment" (PyVal.b true) else setup_dict
  let conditions_dict := Dict.updateMany (Dict.updateMany [("reactionID", PyVal.s rid)]
    (fieldsNone conditionsFields)) msg.conditionsRow
  let conditions_dict := if msg.temperature then conditions_dict.set "temperature" (PyVal.b true) else conditions_dict
  let conditions_dict := if msg.pressure then conditions_dict.set "pressure" (PyVal.b true) else conditions_dict
  let conditions_dict := if msg.stirring then conditions_dict.set "stirring" (PyVal.b true) else conditions_dict
  let conditions_dict := if msg.electrochemistry then conditions_dict.set "electrochemistry" (PyVal.b true) else conditions_dict
  let conditions_dict := if msg.flow then conditions_dict.set "flow" (PyVal.b true) else conditions_dict
  let conditions_dict := if msg.illumination then conditions_dict.set "illumination" (PyVal.b true) else conditions_dict
  let notes_dict := Dict.updateMany (Dict.updateMany [("reactionID", PyVal.s rid)]
    (fieldsNone notesFields)) msg.notesRow
  let wks ← foldE (fun l iw => do
      let d ← flattenWorkup chem rid iw
      return l ++ [d]) [] msg.workups.enum
  let ocs ← foldE (fun l io => do
      let d ← flattenOutcome chem rid io
      return l ++ [d]) [] msg.outcomes.enum
  return { rid := rid, reaction_identifiers := ids, reaction_inputs := ins,
           reaction_setup := [setup_dict], reaction_conditions := [conditions_dict],
           reaction_notes := [notes_dict], reaction_workups := wks,
           reaction_outcomes := ocs }

/-! ## Shared instance-building sub-routines -/

/-- A `try: ... except: continue/pass` boundary: appends made before the
exception are kept, the exception is swallowed. -/
def catchER (a : ER) : ER := (a.1, Option.none)

/-- `d[k]` in Python: a missing key raises `KeyError`. -/
def Dict.getE (d : Dict) (k : String) : Except Err PyVal :=
  match d.get? k with
  | some v => .ok v
  | Option.none => .error (.keyErr k)

/-- The compound-identifier-type → ontology-class table of
`_extract_compound_identifiers` (namespace base, class name). -/
def compIdentifierMapping : String → Option (String × String)
  | "UNSPECIFIED" => some (ccoBase, "ont00000649")
  | "CUSTOM" => some (ccoBase, "ont00000649")
  | "SMILES" => some (mdsBase, "SMILES")
  | "INCHI" => some (mdsBase, "InChI")
  | "MOLBLOCK" => some (mdsBase, "MolBlock")
  | "IUPAC_NAME" => some (mdsBase, "IUPACName")
  | "NAME" => some (mdsBase, "CompoundName")
  | "CAS_NUMBER" => some (mdsBase, "CASNumber")
  | "PUBCHEM_CID" => some (mdsBase, "PubChemCompoundIdentifier")
  | "CHEMSPIDER_ID" => some (mdsBase, "ChemSpiderIdentifier")
  | "CXSMILES" => some (mdsBase, "CXSMILES")
  | "INCHI_KEY" => some (mdsBase, "InChIKey")
  | "XYZ" => some (mdsBase, "XYZ")
  | "UNIPROT_ID" => some (mdsBase, "UniProtIdentifier")
  | "PDB_ID" => some (mdsBase, "ProteinDataBankIdentifier")
  | "AMINO_ACID_SEQUENCE" => some (mdsBase, "AminoAcidSequence")
  | "HELM" => some (mdsBase, "HierarchicalEditingLanuageForMacromolecules")
  | "MDL" => some (mdsBase, "MolecularDeisgnLimitedNumber")
  | _ => Option.none

/-- The reaction-role → ontology-class table of `_extract_components`. -/
def roleMapping : String → Option (String × String)
  | "REACTANT" => some (ccoBase, "ont00000808")
  | "REAGENT" => some (mdsBase, "ReagentArtifactFunction")
  | "SOLVENT" => some (ccoBase, "ont00001160")
  | "CATALYST" => some (ccoBase, "ont00000267")
  | "WORKUP" => some (mdsBase, "WorkupArtifactFunction")
  | "INTERNAL_STANDARD" => some (mdsBase, "InternalStandardArtifactFunction")
  | "AUTHENTIC_STANDARD" => some (mdsBase, "AuthenticStandardArtifactFunction")
  | "PRODUCT" => some (mdsBase, "Product")
  | "BYPRODUCT" => some (mdsBase, "Byproduct")
  | "SIDE_PRODUCT" => some (mdsBase, "SideProduct")
  | _ => Option.none

/-- One iteration of the `for j in ind_list` loop of
`_extract_compound_identifiers` (the body of its per-identifier `try`). -/
def compIdentifierJ (st : KGInit) (onto : Onto) (cl : Dict) (pfx : String)
    (i j : Idx) (idb : String) (comp : Inst) : ER :=
  let tk := pfx ++ "[" ++ i.fmt ++ "].identifiers[" ++ j.fmt ++ "].type"
  let vk := pfx ++ "[" ++ i.fmt ++ "].identifiers[" ++ j.fmt ++ "].value"
  let dk := pfx ++ "[" ++ i.fmt ++ "].identifiers[" ++ j.fmt ++ "].details"
  let mk := pfx ++ "[" ++ i.fmt ++ "].identifiers[" ++ j.fmt ++ "].is_mapped"
  if cl.hasKey tk && cl.hasKey vk then
    let ts := cl.getD tk
    let icls := match ts with
      | .s t => compIdentifierMapping t
      | _ => Option.none
    let isCustom := ts == PyVal.s "UNSPECIFIED" || ts == PyVal.s "CUSTOM"
    let itypeE : Except Err String :=
      if isCustom then .ok "Custom"
      else match icls with
        | some p => .ok (stripWs (onto.classLabel p.2))
        | Option.none => .error (.attrErr "label")
    match itypeE, icls with
    | .error e, _ => raiseER e
    | .ok _, Option.none => erOk
    | .ok itype, some (base, c) =>
      let ident := mintInst onto base c (itype ++ "#" ++ idb ++ "_identifier_" ++ j.fmt)
      listER [
        emitII st.labels "designates" ident.iri comp.iri,
        emitII st.labels "type" ident.iri ident.clsIri,
        emit st.labels "has text value" (PyVal.s ident.iri) (cl.getD vk),
        guardER (cl.hasKey dk) (emit st.labels "details" (PyVal.s ident.iri) (cl.getD dk)),
        guardER (cl.hasKey mk) (emit st.labels "is mapped" (PyVal.s ident.iri) (cl.getD mk))]
  else erOk

/-- `_extract_compound_identifiers(component_list, i, context, prefix,
reaction_component)`: resolve each identifier index under the component to an
ontology identifier class and assert its designation and value; each
identifier index has its own `try/except: continue`. -/
def extract_compound_identifiers (st : KGInit) (ord : List String → List String)
    (rid : String) (cl : Dict) (i : Idx) (context pfx : String) (comp : Inst) : ER :=
  match st.onto with
  | Option.none => raiseER (.attrErr "mds")
  | some onto =>
    let lead := pfx ++ "[" ++ i.fmt ++ "].identifiers["
    let ind_list := extract_index_set ord (capNumBracketDot lead) cl
    if ind_list.isEmpty then erOk
    else
      let idbE : Except Err String :=
        if context = "input" || context = "workup" then
          match cl.get? "InputKey" with
          | some ik => .ok (rid ++ "_" ++ ik.pyStr ++ "_component_" ++ i.fmt)
          | Option.none => .error (.keyErr "InputKey")
        else
          match cl.get? "Index" with
          | some ix => .ok (rid ++ "_Outcome_" ++ ix.pyStr ++ "_Product_" ++ i.fmt)
          | Option.none => .error (.keyErr "Index")
      match idbE with
      | .error e => raiseER e
      | .ok idb =>
        listER (ind_list.map (fun j => catchER (compIdentifierJ st onto cl pfx i j idb comp)))

/-- `_extract_component_amount(component_list, reaction_component, i,
context)`: mint an amount instance of the resolved kind and assert its value
and unit. -/
def extract_component_amount (st : KGInit) (rid : String) (cl : Dict) (comp : Inst)
    (i : Option Idx) (context : String) : ER :=
  let iStr := match i with
    | some ix => ix.fmt
    | Option.none => "None"
  let pfxE : Except Err String :=
    if context = "input" then .ok ("components[" ++ iStr ++ "].")
    else if context = "workup" then .ok ("input.components[" ++ iStr ++ "].")
    else if context = "aliquot" then .ok ""
    else .error (.valueErr "Invalid context")
  match pfxE with
  | .error e => raiseER e
  | .ok pfx =>
    if cl.hasKey (pfx ++ "amount.type") then
      match st.onto with
      | Option.none => raiseER (.attrErr "cco")
      | some onto =>
        let amount_type := cl.getD (pfx ++ "amount.type")
        let kindName : Option String :=
          if amount_type == PyVal.s "moles" then some "Moles"
          else if amount_type == PyVal.s "mass" then some "Mass"
          else if amount_type == PyVal.s "volume" then some "Volume"
          else Option.none
        match kindName with
        | Option.none => erOk
        | some kn =>
          match cl.get? "InputKey" with
          | Option.none => raiseER (.keyErr "InputKey")
          | some ik =>
            let amount_added := mintInst onto ccoBase "ont00000768"
              (kn ++ "#" ++ rid ++ "_" ++ ik.pyStr ++ "_component_" ++ iStr)
            let vk := pfx ++ "amount." ++ amount_type.pyStr ++ ".value"
            let uk := pfx ++ "amount." ++ amount_type.pyStr ++ ".units"
            guardER (cl.hasKey vk && cl.hasKey uk)
              (listER [
                emitII st.labels "inheres in" amount_added.iri comp.iri,
                emit st.labels "has decimal value" (PyVal.s amount_added.iri) (cl.getD vk),
                (match st.unitMap with
                 | Option.none => raiseER (.attrErr "unit_mapping")
                 | some um =>
                   match unitLookup um (cl.getD uk) with
                   | .error e => raiseER e
                   | .ok iri => emit st.labels "uses measurement unit"
                       (PyVal.s amount_added.iri) (PyVal.s iri))])
    else erOk

/-- One iteration of the `temperature.measurements` loop of
`_process_temperature`; `tmv` is the current value of the
`temperature_measurement` variable (the setpoint measurement until a
measurement with a `type` key rebinds it). -/
def temperatureMeasurementI (st : KGInit) (onto : Onto) (rid context : String)
    (cl : Dict) (tmv : Inst) (i : Idx) : ER × Inst :=
  let mp := "temperature.measurements"
  let type_key := mp ++ "[" ++ i.fmt ++ "].type"
  let details_key := mp ++ "[" ++ i.fmt ++ "].details"
  let time_key := mp ++ "[" ++ i.fmt ++ "].time.value"
  let temp_key := mp ++ "[" ++ i.fmt ++ "].temperature.value"
  let tmv' := if cl.hasKey type_key then
      mintInst onto mdsBase "AnalyticalResult"
        ("TemperatureMeasurement#" ++ rid ++ "_" ++ context ++ "_" ++ i.fmt)
    else tmv
  let er := listER [
    guardER (cl.hasKey type_key)
      (emit st.labels "details" (PyVal.s tmv'.iri) (cl.getD type_key)),
    guardER (cl.hasKey details_key)
      (emit st.labels "details" (PyVal.s tmv'.iri) (cl.getD details_key)),
    guardER (cl.hasKey temp_key && cl.hasKey (mp ++ "[" ++ i.fmt ++ "].temperature.units"))
      (listER [
        emit st.labels "has decimal value" (PyVal.s tmv'.iri) (cl.getD temp_key),
        (match st.unitMap with
         | Option.none => raiseER (.attrErr "unit_mapping")
         | some um =>
           match unitLookup um (cl.getD (mp ++ "[" ++ i.fmt ++ "].temperature.units")) with
           | .error e => raiseER e
           | .ok iri => emit st.labels "uses measurement unit" (PyVal.s tmv'.iri) (PyVal.s iri))]),
    guardER (cl.hasKey time_key && cl.hasKey (mp ++ "[" ++ i.fmt ++ "].time.units"))
      (let time_measurement := mintInst onto oboBase "BFO_0000148"
          ("TemperatureMeasurementTime#" ++ rid ++ "_" ++ context ++ "_" ++ i.fmt)
       listER [
        emit st.labels "has datetime value" (PyVal.s time_measurement.iri) (cl.getD time_key),
        (match st.unitMap with
         | Option.none => raiseER (.attrErr "unit_mapping")
         | some um =>
           match unitLookup um (cl.getD (mp ++ "[" ++ i.fmt ++ "].time.units")) with
           | .error e => raiseER e
           | .ok iri => emit st.labels "uses measurement unit" (PyVal.s tmv'.iri) (PyVal.s iri))])]
  (er, tmv')

/-- `_process_temperature(component_list, reaction_component, context)`:
mint the context-appropriate temperature instance and its setpoint
measurement, assert the bearer, and (for condition/workup) walk the repeated
sub-measurements. -/
def process_temperature (st : KGInit) (ord : List String → List String)
    (rid : String) (cl : Dict) (comp : Option Inst) (context : String) : ER :=
  if context = "condition" || context = "workup" || context = "input" then
    match st.onto with
    | Option.none => raiseER (.attrErr "cco")
    | some onto =>
      let reaction_temperature :=
        if context = "workup" then
          mintInst onto ccoBase "ont00000441" ("WorkupTemperature#" ++ rid)
        else if context = "condition" then
          mintInst onto mdsBase "ReactionTemperature" ("ReactionTemperature#" ++ rid)
        else
          mintInst onto ccoBase "ont00000441" ("AdditionTemperature#" ++ rid)
      let pfx := if context = "input" then "addition_temperature" else "temperature.setpoint"
      if context = "input" && comp.isNone then
        raiseER (.valueErr "reaction_component must be provided")
      else
        let temperature_measurement := mintInst onto mdsBase "AnalyticalResult"
          ("TemperatureMeasurement#" ++ rid ++ "_" ++ context)
        let headER := listER [
          emitII st.labels "type" reaction_temperature.iri reaction_temperature.clsIri,
          emitII st.labels "type" temperature_measurement.iri temperature_measurement.clsIri,
          emitII st.labels "is about" temperature_measurement.iri reaction_temperature.iri,
          (match cl.get? (pfx ++ ".value") with
           | Option.none => raiseER (.keyErr (pfx ++ ".value"))
           | some v => emit st.labels "has decimal value" (PyVal.s temperature_measurement.iri) v),
          (match cl.get? (pfx ++ ".units") with
           | Option.none => raiseER (.keyErr (pfx ++ ".units"))
           | some u =>
             match st.unitMap with
             | Option.none => raiseER (.attrErr "unit_mapping")
             | some um =>
               match unitLookup um u with
               | .error e => raiseER e
               | .ok iri => emit st.labels "uses measurement unit"
                   (PyVal.s temperature_measurement.iri) (PyVal.s iri)),
          guardER (cl.hasKey (pfx ++ ".control.type") && (context = "input" || context = "workup"))
            (let control_tool := mintInst onto ccoBase "ont00000581"
                ("TemperatureControl#" ++ rid ++ "_" ++ (cl.getD (pfx ++ ".control.type")).pyStr)
             listER [
              emitII st.labels "type" control_tool.iri control_tool.clsIri,
              emit st.labels "affects" (PyVal.s control_tool.rpr) (PyVal.s reaction_temperature.iri)]),
          (if context = "condition" then
            match st.reaction_environment with
            | some env => emitII st.labels "bearer of" env.iri reaction_temperature.iri
            | Option.none => raiseER (.attrErr "reaction_environment")
          else if context = "workup" then
            match st.reaction_mixture with
            | some rm => emitII st.labels "bearer of" rm.iri reaction_temperature.iri
            | Option.none => raiseER (.attrErr "reaction_mixture")
          else
            match comp with
            | some c => emitII st.labels "bearer of" c.iri reaction_temperature.iri
            | Option.none => raiseER (.attrErr "reaction_component"))]
        if context = "condition" || context = "workup" then
          let index_list := extract_index_set ord (capNumBracket "temperature.measurements[") cl
          seqER headER
            (index_list.foldl (fun (acc : ER × Inst) i =>
              match acc.1.2 with
              | some _ => acc
              | Option.none =>
                let p := temperatureMeasurementI st onto rid context cl acc.2 i
                (seqER acc.1 p.1, p.2)) (erOk, temperature_measurement)).1
        else headER
  else raiseER (.valueErr "Invalid context")

/-- The per-index body of `_extract_components`: mint the component (named by
its canonical key when recorded), assert membership and role, then amounts
and temperature; a failure inside identifier extraction is caught and skips
the remainder of this index. -/
def componentInstE (onto : Onto) (rid : String) (cl : Dict) (context pfx : String)
    (i : Idx) : Except Err (Inst × Option (Idx × Inst)) :=
  let keyK := pfx ++ "[" ++ i.fmt ++ "].INCHI_KEY"
  if context = "input" || context = "workup" then
    match cl.get? "InputKey" with
    | Option.none => .error (.keyErr "InputKey")
    | some ik =>
      let nm := if cl.hasKey keyK then
          "Component#" ++ rid ++ "_" ++ ik.pyStr ++ "_" ++ (cl.getD keyK).pyStr
        else
          "Component#" ++ rid ++ "_" ++ ik.pyStr ++ "_component_" ++ i.fmt
      .ok (mintInst onto mdsBase "Component" nm, Option.none)
  else
    if cl.hasKey keyK then
      let c := mintInst onto mdsBase "Product"
        ("Product#" ++ rid ++ "_" ++ (cl.getD keyK).pyStr)
      .ok (c, some (i, c))
    else
      match cl.get? "Index" with
      | Option.none => .error (.keyErr "Index")
      | some ix =>
        let c := mintInst onto mdsBase "Product"
          ("Product#" ++ rid ++ "_Outcome_" ++ ix.pyStr ++ "_Product_" ++ i.fmt)
        .ok (c, some (i, c))

/-- The per-index body of `_extract_components` proper. -/
def extractComponentsIndex (st : KGInit) (ord : List String → List String)
    (rid : String) (cl : Dict) (node : Option Inst) (context pfx : String)
    (i : Idx) : ER × Option (Idx × Inst) :=
  match st.onto with
  | Option.none => (raiseER (.attrErr "mds"), Option.none)
  | some onto =>
    match componentInstE onto rid cl context pfx i with
    | .error e => (raiseER e, Option.none)
    | .ok (comp, pdEntry) =>
      let headER := listER [
        emitII st.labels "type" comp.iri comp.clsIri,
        guardER (context = "input" && st.reaction_mixture.isSome)
          (match st.reaction_mixture with
           | some rm => emitII st.labels "member part of" comp.iri rm.iri
           | Option.none => erOk),
        (if (context = "input" || context = "workup") && node.isSome then
          match node with
          | some n => emitII st.labels "is input of" comp.iri n.iri
          | Option.none => erOk
        else if context = "product" then
          match st.chemical_reaction with
          | some cr => emitII st.labels "has output" cr.iri comp.iri
          | Option.none => raiseER (.attrErr "chemical_reaction")
        else erOk)]
      match headER.2 with
      | some _ => (headER, pdEntry)
      | Option.none =>
        let identER := extract_compound_identifiers st ord rid cl i context pfx comp
        match identER.2 with
        | some _ => ((headER.1 ++ identER.1, Option.none), pdEntry)
        | Option.none =>
          let role_key := pfx ++ "[" ++ i.fmt ++ "].reaction_role"
          let roleER :=
            guardER (cl.hasKey role_key)
              (let role_class := match cl.getD role_key with
                | .s t => roleMapping t
                | _ => Option.none
               let role_type := match role_class with
                | some p => stripWs (onto.classLabel p.2)
                | Option.none => "Custom"
               let ridbE : Except Err String :=
                 if context = "input" || context = "workup" then
                   match cl.get? "InputKey" with
                   | some ik => .ok (rid ++ "_" ++ ik.pyStr ++ "_component_" ++ i.fmt)
                   | Option.none => .error (.keyErr "InputKey")
                 else if context = "product" then
                   match cl.get? "Index" with
                   | some ix => .ok (rid ++ "_Outcome_" ++ ix.pyStr ++ "_Product_" ++ i.fmt)
                   | Option.none => .error (.keyErr "Index")
                 else .ok ""
               match ridbE with
               | .error e => raiseER e
               | .ok ridb =>
                 match role_class with
                 | Option.none => erOk
                 | some (base, c) =>
                   let component_role := mintInst onto base c
                     (role_type ++ "ArtifactFunction#" ++ ridb)
                   listER [
                    emitII st.labels "type" component_role.iri component_role.clsIri,
                    emitII st.labels "inheres in" component_role.iri comp.iri])
          let flagsER := listER [
            guardER (cl.hasKey (pfx ++ "[" ++ i.fmt ++ "].is_limiting") &&
                (cl.getD (pfx ++ "[" ++ i.fmt ++ "].is_limiting")).truthy)
              (emit st.labels "is limiting" (PyVal.s comp.iri)
                (cl.getD (pfx ++ "[" ++ i.fmt ++ "].is_limiting"))),
            guardER (cl.hasKey (pfx ++ "[" ++ i.fmt ++ "].is_desired_product"))
              (emit st.labels "is desired product" (PyVal.s comp.iri)
                (cl.getD (pfx ++ "[" ++ i.fmt ++ "].is_desired_product"))),
            guardER (cl.hasKey (pfx ++ "[" ++ i.fmt ++ "].isolated_color"))
              (emit st.labels "isolated color" (PyVal.s comp.iri)
                (cl.getD (pfx ++ "[" ++ i.fmt ++ "].isolated_color"))),
            guardER (cl.hasKey (pfx ++ "[" ++ i.fmt ++ "].amount.type"))
              (extract_component_amount st rid cl comp (some i) context),
            guardER (cl.hasKey "addition_temperature.value" &&
                cl.hasKey "addition_temperature.units")
              (process_temperature st ord rid cl (some comp) context)]
          (seqER (seqER headER identER) (seqER roleER flagsER), pdEntry)

/-- `_extract_components(component_list, process_node, context)`: iterate the
index set of the context's structural pattern, mint and relate one component
instance per index, and collect product instances for the `product`
context. -/
def extract_components (st : KGInit) (ord : List String → List String)
    (rid : String) (cl : Dict) (node : Option Inst) (context : String) :
    ER × List (Idx × Inst) :=
  let pat : Option (String × String) :=
    if context = "input" then some ("components[", "components")
    else if context = "workup" then some ("input.components[", "input.components")
    else if context = "product" then some ("products[", "products")
    else Option.none
  match pat with
  | Option.none => (raiseER (.valueErr "Invalid context"), [])
  | some (lead, pfx) =>
    if (context = "input" || context = "workup") && node.isNone then
      (raiseER (.valueErr "A process node is required"), [])
    else
      let index_list := extract_index_set ord (capNumBracket lead) cl
      index_list.foldl (fun (acc : ER × List (Idx × Inst)) i =>
        match acc.1.2 with
        | some _ => acc
        | Option.none =>
          let p := extractComponentsIndex st ord rid cl node context pfx i
          (seqER acc.1 p.1,
           match p.2 with
           | some e => acc.2 ++ [e]
           | Option.none => acc.2)) (erOk, [])

/-! ## The seven per-section passes -/

/-- `d[k]` followed by use of the value; a missing key raises. -/
def withKey (d : Dict) (k : String) (f : PyVal → ER) : ER :=
  match d.get? k with
  | some v => f v
  | Option.none => raiseER (.keyErr k)

/-- f-string rendering of an optional mapped name (`None` prints as such). -/
def optStrNone : Option String → String
  | some s => s
  | Option.none => "None"

/-- The reaction-identifier-type → class table of
`_process_reaction_identifiers` (`UNSPECIFIED`/`CUSTOM` map to `None`). -/
def reactionIdentifierMapping : String → Option String
  | "REACTION_TYPE" => some "ReactionType"
  | "REACTION_SMILES" => some "ReactionSMILES"
  | "REACTION_CXSMILES" => some "ReactionCXSMILES"
  | "RDFILE" => some "ReactionDataFile"
  | "RINCHI" => some "RInChI"
  | _ => Option.none

/-- `_process_reaction_identifiers()`. -/
def process_reaction_identifiers (st : KGInit) (rid : String) (items : List Dict) : ER :=
  match st.onto with
  | Option.none => raiseER (.attrErr "mds")
  | some onto =>
    listER (items.map (fun item =>
      let cls := match item.getD "type" with
        | .s t => reactionIdentifierMapping t
        | _ => Option.none
      match cls with
      | Option.none => erOk
      | some c =>
        let identifier_type := stripWs (onto.classLabel c)
        let identifier := mintInst onto mdsBase c (identifier_type ++ rid)
        listER [
          emitII st.labels "type" identifier.iri identifier.clsIri,
          (match st.chemical_reaction with
           | some cr => emitII st.labels "designates" identifier.iri cr.iri
           | Option.none => raiseER (.attrErr "chemical_reaction")),
          emit st.labels "has text value" (PyVal.s identifier.iri) (item.getD "value"),
          guardER (item.getD "details").truthy
            (emit st.labels "details" (PyVal.s identifier.iri) (item.getD "details")),
          guardER (item.getD "is_mapped").truthy
            (emit st.labels "is mapped" (PyVal.s identifier.iri) (item.getD "is_mapped"))]))

/-- The per-input body of `_process_reaction_inputs`. -/
def inputItemER (st : KGInit) (ord : List String → List String) (rid : String)
    (item : Dict) : ER :=
  match st.onto with
  | Option.none => raiseER (.attrErr "mds")
  | some onto =>
    match item.get? "InputKey" with
    | Option.none => raiseER (.keyErr "InputKey")
    | some ik =>
      let input_addition := mintInst onto mdsBase "InputAddition"
        ("InputAddition#" ++ rid ++ "_" ++ ik.pyStr)
      let headER := listER [
        emitII st.labels "type" input_addition.iri input_addition.clsIri,
        (match st.chemical_reaction with
         | some cr => emitII st.labels "has process part" cr.iri input_addition.iri
         | Option.none => raiseER (.attrErr "chemical_reaction")),
        (match st.reaction_mixture with
         | some rm => emitII st.labels "has output" input_addition.iri rm.iri
         | Option.none => raiseER (.attrErr "reaction_mixture"))]
      let compER := (extract_components st ord rid item (some input_addition) "input").1
      let tailER := listER [
        withKey item "addition_order" (fun v => guardER v.truthy
          (emit st.labels "addition order" (PyVal.s input_addition.iri) v)),
        withKey item "addition_speed" (fun v =>
          guardER (v == PyVal.b true && item.hasKey "addition_speed.type")
            (let addition_speed := mintInst onto mdsBase "AdditionSpeed" ("AdditionSpeed#" ++ rid)
             listER [
              emitII st.labels "type" addition_speed.iri addition_speed.clsIri,
              emitII st.labels "has occurent part" input_addition.iri addition_speed.iri,
              emit st.labels "has text value" (PyVal.s addition_speed.iri)
                (item.getD "addition_speed.type"),
              guardER (item.hasKey "addition_speed.details")
                (emit st.labels "details" (PyVal.s addition_speed.iri)
                  (item.getD "addition_speed.details"))])),
        withKey item "addition_duration" (fun v =>
          guardER (v == PyVal.b true && item.hasKey "addition_duration.value" &&
              item.hasKey "addition_duration.units")
            (let addition_duration := mintInst onto oboBase "BFO_0000202"
                ("AdditionDuration#" ++ rid)
             listER [
              emitII st.labels "type" addition_duration.iri addition_duration.clsIri,
              emitII st.labels "occupies temporal region" input_addition.iri addition_duration.iri,
              emit st.labels "has datetime value" (PyVal.s addition_duration.iri)
                (item.getD "addition_duration.value"),
              (match st.unitMap with
               | Option.none => raiseER (.attrErr "unit_mapping")
               | some um =>
                 match unitLookup um (item.getD "addition_duration.units") with
                 | .error e => raiseER e
                 | .ok iri => emit st.labels "uses measurement unit"
                     (PyVal.s addition_duration.iri) (PyVal.s iri))])),
        withKey item "addition_time" (fun v =>
          guardER (v == PyVal.b true && item.hasKey "addition_time.value" &&
              item.hasKey "addition_time.units")
            (let addition_time := mintInst onto oboBase "BFO_0000202" ("AdditionTime#" ++ rid)
             listER [
              emitII st.labels "type" addition_time.iri addition_time.clsIri,
              emitII st.labels "occupies temporal region" input_addition.iri addition_time.iri,
              emit st.labels "has datetime value" (PyVal.s addition_time.iri)
                (item.getD "addition_time.value"),
              (match st.unitMap with
               | Option.none => raiseER (.attrErr "unit_mapping")
               | some um =>
                 match unitLookup um (item.getD "addition_time.units") with
                 | .error e => raiseER e
                 | .ok iri => emit st.labels "uses measurement unit"
                     (PyVal.s addition_time.iri) (PyVal.s iri))])),
        withKey item "flow_rate" (fun v =>
          guardER (v == PyVal.b true && item.hasKey "flow_rate.value" &&
              item.hasKey "flow_rate.units")
            (let flow_rate := mintInst onto mdsBase "FlowRate" ("FlowRate#" ++ rid)
             listER [
              emitII st.labels "type" flow_rate.iri flow_rate.clsIri,
              emitII st.labels "has occurent part" input_addition.iri flow_rate.iri,
              emit st.labels "has decimal value" (PyVal.s flow_rate.iri)
                (item.getD "flow_rate.value"),
              emit st.labels "uses measurement unit" (PyVal.s flow_rate.iri)
                (item.getD "flow_rate.units")])),
        withKey item "addition_device" (fun v =>
          guardER (v == PyVal.b true && item.hasKey "addition_device.type")
            (let addition_device := mintInst onto ccoBase "ont00000581"
                ("AdditionDevice#" ++ rid ++ "_" ++ (item.getD "addition_device.type").pyStr)
             listER [
              emitII st.labels "type" addition_device.iri addition_device.clsIri,
              emitII st.labels "participates in" addition_device.iri input_addition.iri,
              guardER (item.hasKey "addition_device.details")
                (emit st.labels "details" (PyVal.s addition_device.iri)
                  (item.getD "addition_device.details"))]))]
      seqER headER (seqER compER tailER)

/-- `_process_reaction_inputs()`. -/
def process_reaction_inputs (st : KGInit) (ord : List String → List String)
    (rid : String) (items : List Dict) : ER :=
  listER (items.map (inputItemER st ord rid))

/-- The atmosphere table of `_process_reaction_conditions`. -/
def atmosphereMapping : String → Option String
  | "AIR" => some "AmbientAir"
  | "NITROGEN" => some "Nitrogen"
  | "ARGON" => some "Argon"
  | "OXYGEN" => some "Oxygen"
  | "HYDROGEN" => some "Hydrogen"
  | "CARBON_MONOXIDE" => some "CarbonMonoxide"
  | "CARBON_DIOXIDE" => some "CarbonDioxide"
  | "METHANE" => some "Methane"
  | "AMMONIA" => some "Ammonia"
  | "OZONE" => some "Ozone"
  | "ETHYLENE" => some "Ethylene"
  | "ACETYLENE" => some "Acetyle"
  | _ => Option.none

/-- The tubing-material table of `_process_reaction_conditions`; the outer
`Option` distinguishes a `KeyError` of the direct `tube_mapping[...]` lookup
from a present `None` entry. -/
def tubeMapping : String → Option (Option String)
  | "UNSPECIFIED" => some Option.none
  | "CUSTOM" => some Option.none
  | "STEEL" => some (some "SteelTube")
  | "COPPER" => some (some "CopperTube")
  | "PFA" => some (some "PerfluoroalkoxyTube")
  | "FEP" => some (some "FluorinatedEthylenePropyleneTube")
  | "TEFLONAF" => some (some "TeflonAmorphousFluoropolymersTube")
  | "PTFE" => some (some "PolytetrafluoroethyleneTube")
  | "GLASS" => some (some "GlassTube")
  | "QUARTZ" => some (some "QuartzTube")
  | "SILICON" => some (some "SiliconTube")
  | "PDMS" => some (some "PolydimethylsiloxaneTube")
  | _ => Option.none

/-- The per-item body of `_process_reaction_conditions`. -/
def conditionsItemER (st : KGInit) (ord : List String → List String)
    (rid : String) (item : Dict) : ER :=
  listER [
    withKey item "temperature" (fun v =>
      guardER (v == PyVal.b true && item.hasKey "temperature.setpoint.value" &&
          item.hasKey "temperature.setpoint.units")
        (process_temperature st ord rid item Option.none "condition")),
    withKey item "pressure" (fun v =>
      guardER (v == PyVal.b true && item.hasKey "pressure.setpoint.value" &&
          item.hasKey "pressure.setpoint.units")
        (match st.onto with
         | Option.none => raiseER (.attrErr "mds")
         | some onto =>
           let reaction_pressure := mintInst onto mdsBase "ReactionPressure"
             ("ReactionPressure#" ++ rid)
           let envER := fun (f : Inst → ER) =>
             match st.reaction_environment with
             | some env => f env
             | Option.none => raiseER (.attrErr "reaction_environment")
           listER [
            emitII st.labels "type" reaction_pressure.iri reaction_pressure.clsIri,
            emit st.labels "has decimal value" (PyVal.s reaction_pressure.iri)
              (item.getD "pressure.setpoint.value"),
            envER (fun env => emitII st.labels "bearer of" env.iri reaction_pressure.iri),
            (match st.unitMap with
             | Option.none => raiseER (.attrErr "unit_mapping")
             | some um =>
               match unitLookup um (item.getD "pressure.setpoint.units") with
               | .error e => raiseER e
               | .ok iri => emit st.labels "uses measurement unit"
                   (PyVal.s reaction_pressure.iri) (PyVal.s iri)),
            envER (fun env => emitII st.labels "bearer of" env.iri reaction_pressure.iri),
            guardER (item.hasKey "pressure.control.type")
              (emit st.labels "details" (PyVal.s reaction_pressure.iri)
                (item.getD "pressure.control.type")),
            guardER (item.hasKey "pressure.atmosphere.type")
              (let atmosphere_type := match item.getD "pressure.atmosphere.type" with
                | .s t => atmosphereMapping t
                | _ => Option.none
               let reaction_atmosphere := mintInst onto mdsBase "ReactionAtmosphere"
                 ("ReactionAtmosphere#" ++ rid ++ "_" ++ optStrNone atmosphere_type)
               listER [
                emitII st.labels "type" reaction_atmosphere.iri reaction_atmosphere.clsIri,
                envER (fun env => emitII st.labels "is made of" env.iri reaction_atmosphere.iri)])])),
    withKey item "stirring" (fun v =>
      guardER (v == PyVal.b true && item.hasKey "stirring.type")
        (match st.onto with
         | Option.none => raiseER (.attrErr "obo")
         | some onto =>
           let stirring_condition := mintInst onto oboBase "CHMO_0002774"
             ("StirringProcess#" ++ rid)
           listER [
            emitII st.labels "type" stirring_condition.iri stirring_condition.clsIri,
            (match st.chemical_reaction with
             | some cr => emitII st.labels "has process part" cr.iri stirring_condition.iri
             | Option.none => raiseER (.attrErr "chemical_reaction")),
            guardER (item.hasKey "stirring.rate.type")
              (let stirring_rate := mintInst onto mdsBase "StirringRate" ("StirringRate#" ++ rid)
               listER [
                emitII st.labels "type" stirring_rate.iri stirring_rate.clsIri,
                emitII st.labels "has occurent part" stirring_condition.iri stirring_rate.iri,
                emit st.labels "details" (PyVal.s stirring_rate.iri)
                  (item.getD "stirring.rate.type")])])),
    withKey item "illumination" (fun v =>
      guardER (v == PyVal.b true && item.hasKey "illumination.type")
        (match st.onto with
         | Option.none => raiseER (.attrErr "mds")
         | some onto =>
           let illumination_conditions := mintInst onto mdsBase "Illumination"
             ("IlluminationProcess#" ++ rid)
           listER [
            emitII st.labels "type" illumination_conditions.iri illumination_conditions.clsIri,
            (match st.chemical_reaction with
             | some cr => emitII st.labels "has process part" cr.iri illumination_conditions.iri
             | Option.none => raiseER (.attrErr "chemical_reaction")),
            guardER (item.hasKey "illumination.peak_wavelength.value" &&
                item.hasKey "illumination.peak_wavelength.units")
              (let peak_wavelength := mintInst onto mdsBase "PeakWavelength"
                  ("PeakWavelength#" ++ rid)
               listER [
                emitII st.labels "type" peak_wavelength.iri peak_wavelength.clsIri,
                emitII st.labels "has occurent part" illumination_conditions.iri peak_wavelength.iri,
                emit st.labels "has decimal value" (PyVal.s peak_wavelength.iri)
                  (item.getD "illumination.peak_wavelength.value"),
                emit st.labels "uses measurement unit" (PyVal.s peak_wavelength.iri)
                  (item.getD "illumination.peak_wavelength.units")])])),
    withKey item "electrochemistry" (fun v =>
      guardER (v == PyVal.b true && item.hasKey "electrochemistry.type")
        (match st.onto with
         | Option.none => raiseER (.attrErr "mds")
         | some onto =>
           let ec := mintInst onto mdsBase "ElectrochemicalReaction"
             ("ElectrochemicalReaction#" ++ rid)
           listER [
            emitII st.labels "type" ec.iri ec.clsIri,
            (match st.chemical_reaction with
             | some cr => emitII st.labels "has process part" cr.iri ec.iri
             | Option.none => raiseER (.attrErr "chemical_reaction")),
            guardER (item.hasKey "electrochemistry.details")
              (emit st.labels "details" (PyVal.s ec.iri) (item.getD "electrochemistry.details")),
            guardER (item.hasKey "electrochemistry.current.value" &&
                item.hasKey "electrochemistry.current.units")
              (listER [
                emit st.labels "has decimal value" (PyVal.s ec.iri)
                  (item.getD "electrochemistry.current.value"),
                emit st.labels "uses measurement unit" (PyVal.s ec.iri)
                  (item.getD "electrochemistry.current.units")]),
            guardER (item.hasKey "electrochemistry.voltage.value" &&
                item.hasKey "electrochemistry.voltage.units")
              (listER [
                emit st.labels "has decimal value" (PyVal.s ec.iri)
                  (item.getD "electrochemistry.voltage.value"),
                emit st.labels "uses measurement unit" (PyVal.s ec.iri)
                  (item.getD "electrochemistry.voltage.units")]),
            guardER (item.hasKey "electrochemistry.anode_material")
              (emit st.labels "has text value" (PyVal.s ec.iri)
                (item.getD "electrochemistry.anode_material")),
            guardER (item.hasKey "electrochemistry.cathode_material")
              (emit st.labels "has text value" (PyVal.s ec.iri)
                (item.getD "electrochemistry.cathode_material")),
            guardER (item.hasKey "electrochemistry.electrode_separation.value" &&
                item.hasKey "electrochemistry.electrode_separation.units")
              (raiseER (.nameErr "cco"))])),
    withKey item "flow" (fun v =>
      guardER (v == PyVal.b true && item.hasKey "flow.type")
        (match st.onto with
         | Option.none => raiseER (.attrErr "mds")
         | some onto =>
           let flow_condition := mintInst onto mdsBase "ContinuousFlow"
             ("FlowConditions#" ++ rid)
           listER [
            emitII st.labels "type" flow_condition.iri flow_condition.clsIri,
            (match st.chemical_reaction with
             | some cr => emitII st.labels "has process part" cr.iri flow_condition.iri
             | Option.none => raiseER (.attrErr "chemical_reaction")),
            guardER (item.hasKey "flow.details")
              (emit st.labels "details" (PyVal.s flow_condition.iri) (item.getD "flow.details")),
            guardER (item.hasKey "flow.pump_type")
              (emit st.labels "details" (PyVal.s flow_condition.iri) (item.getD "flow.pump_type")),
            guardER (item.hasKey "flow.tubing.type")
              (match item.getD "flow.tubing.type" with
               | .s t =>
                 match tubeMapping t with
                 | Option.none => raiseER (.keyErr t)
                 | some _ => raiseER (.nameErr "cco")
               | w => raiseER (.keyErr w.pyStr))]))]

/-- `_process_reaction_conditions()`. -/
def process_reaction_conditions (st : KGInit) (ord : List String → List String)
    (rid : String) (items : List Dict) : ER :=
  listER (items.map (conditionsItemER st ord rid))

/-- `_process_reaction_notes()`: one guarded datatype assertion on the
reaction per note field present. -/
def process_reaction_notes (st : KGInit) (items : List Dict) : ER :=
  listER (items.map (fun item => listER (
    ([("is_heterogeneous", "is heterogeneous"), ("forms_precipitate", "forms precipitate"),
      ("is_exothermic", "is exothermic"), ("offgasses", "off gasses"),
      ("is_sensitive_to_moisture", "is sensitive to moisture"),
      ("is_sensitive_to_oxygen", "is sensitive to oxygen"),
      ("is_sensitive_to_light", "is sensitive to light"),
      ("safety_notes", "safety notes"),
      ("procedure_details", "procedure details")] : List (String × String)).map
    (fun kl => guardER (item.hasKey kl.1)
      (match st.chemical_reaction with
       | some cr => emit st.labels kl.2 (PyVal.s cr.iri) (item.getD kl.1)
       | Option.none => raiseER (.attrErr "chemical_reaction"))))))

/-- The workup-type table of `_process_reaction_workups`. -/
def workupMapping : String → Option String
  | "ADDITION" => some "Addition"
  | "ALIQUOT" => some "Aliquot"
  | "TEMPERATURE" => some "Temperature"
  | "CONCENTRATION" => some "Concentration"
  | "EXTRACTION" => some "Extraction"
  | "FILTRATION" => some "Filtration"
  | "WASH" => some "Wash"
  | "DRY_IN_VACUUM" => some "DryInVacuum"
  | "DRY_WITH_MATERIAL" => some "DryWithMaterial"
  | "FLASH_CHROMATOGRAPHY" => some "FlashChromatography"
  | "OTHER_CHROMATOGRAPHY" => some "OtherChromatography"
  | "SCAVENGING" => some "Scavenging"
  | "WAIT" => some "Wait"
  | "STIRRING" => some "Stirring"
  | "PH_ADJUST" => some "pHAdjust"
  | "DISSOLUTION" => some "Dissolution"
  | "DISTILLATION" => some "Distillation"
  | _ => Option.none

/-- The per-step body of `_process_reaction_workups`. -/
def workupItemER (st : KGInit) (ord : List String → List String) (rid : String)
    (item : Dict) : ER :=
  match st.onto with
  | Option.none => raiseER (.attrErr "mds")
  | some onto =>
    withKey item "type" (fun tv =>
    withKey item "Index" (fun ixv =>
      let workup_type := match tv with
        | .s t => workupMapping t
        | _ => Option.none
      let workup_instance := mintInst onto mdsBase "ReactionWorkup"
        ("ReactionWorkup#" ++ rid ++ "_" ++ optStrNone workup_type ++ "_" ++ ixv.pyStr)
      listER [
        withKey item "details" (fun dv => guardER (dv != PyVal.none)
          (emit st.labels "details" (PyVal.s workup_instance.iri) dv)),
        guardER (tv == PyVal.s "WAIT" && item.hasKey "duration.value" &&
            item.hasKey "duration.units")
          (let duration_instance := mintInst onto oboBase "BFO_0000202"
              ("WorkupDuration#" ++ rid ++ "_" ++ ixv.pyStr)
           listER [
            emitII st.labels "type" duration_instance.iri duration_instance.clsIri,
            emitII st.labels "occupies temporal region" workup_instance.iri duration_instance.iri,
            emit st.labels "has datetime value" (PyVal.s duration_instance.iri)
              (item.getD "duration.value"),
            (match st.unitMap with
             | Option.none => raiseER (.attrErr "unit_mapping")
             | some um =>
               match unitLookup um (item.getD "duration.units") with
               | .error e => raiseER e
               | .ok iri => emit st.labels "uses measurement unit"
                   (PyVal.s duration_instance.iri) (PyVal.s iri))]),
        (match st.crude_product with
         | some cp => emitII st.labels "is input of" cp.iri workup_instance.iri
         | Option.none => raiseER (.attrErr "crude_product")),
        (match st.chemical_reaction with
         | some cr => emitII st.labels "precedes" cr.iri workup_instance.iri
         | Option.none => raiseER (.attrErr "chemical_reaction")),
        guardER (tv == PyVal.s "ADDITION" || tv == PyVal.s "DRY_WITH_MATERIAL" ||
            tv == PyVal.s "WASH" || tv == PyVal.s "SCAVENGING")
          (withKey item "input" (fun iv => guardER (iv == PyVal.b true)
            ((extract_components st ord rid item (some workup_instance) "workup").1))),
        guardER (tv == PyVal.s "ALIQUOT" && item.hasKey "amount.value" &&
            item.hasKey "amount.units" && item.hasKey "workup.amount.type")
          (extract_component_amount st rid item workup_instance Option.none "aliquot"),
        guardER ((tv == PyVal.s "TEMPERATURE" || tv == PyVal.s "DRY_IN_VACUUM" ||
            tv == PyVal.s "DISTILLATION") &&
            item.hasKey "workup.temperature.setpoint.value" &&
            item.hasKey "workup.temperature.setpoint.units")
          (process_temperature st ord rid item Option.none "workup"),
        guardER ((tv == PyVal.s "EXTRACTION" || tv == PyVal.s "FILTRATION") &&
            item.hasKey "keep_phase")
          (emit st.labels "keep phase" (PyVal.s workup_instance.iri) (item.getD "keep_phase")),
        guardER (tv == PyVal.s "PH_ADJUST" && item.hasKey "target_ph")
          (emit st.labels "details" (PyVal.s workup_instance.iri) (item.getD "target_ph")),
        guardER (tv == PyVal.s "STIRRING")
          (withKey item "stirring" (fun sv => guardER (sv == PyVal.b true)
            (let stirring_condition := mintInst onto oboBase "CHMO_0002774"
                ("StirringProcess#" ++ rid ++ "_Workup_" ++ ixv.pyStr)
             listER [
              emitII st.labels "type" stirring_condition.iri stirring_condition.clsIri,
              emitII st.labels "has process part" workup_instance.iri stirring_condition.iri,
              guardER (item.hasKey "stirring.rate.type")
                (let stirring_rate := mintInst onto mdsBase "StirringRate"
                    ("StirringRate#" ++ rid)
                 listER [
                  emitII st.labels "type" stirring_rate.iri stirring_rate.clsIri,
                  emitII st.labels "has occurent part" stirring_condition.iri stirring_rate.iri,
                  emit st.labels "details" (PyVal.s stirring_rate.iri)
                    (item.getD "stirring.rate.type")])]))),
        guardER ((tv == PyVal.s "FLASH_CHROMATOGRAPHY" ||
            tv == PyVal.s "OTHER_CHROMATOGRAPHY") && item.hasKey "is_automated")
          (emit st.labels "is automated" (PyVal.s workup_instance.iri)
            (item.getD "is_automated"))]))

/-- `_process_reaction_workups()`. -/
def process_reaction_workups (st : KGInit) (ord : List String → List String)
    (rid : String) (items : List Dict) : ER :=
  listER (items.map (workupItemER st ord rid))

/-- Association lookup in the `product_dict` of the outcomes pass. -/
def pdFind (pd : List (Idx × Inst)) (i : Idx) : Option Inst :=
  (pd.find? (fun p => p.1 == i)).map (fun p => p.2)

/-- The per-measurement body of `_extract_product_measurement`. -/
def productMeasurementJ (st : KGInit) (onto : Onto) (rid : String) (cl : Dict)
    (pd : List (Idx × Inst)) (i j : Idx) : ER :=
  match pdFind pd i with
  | Option.none => erOk
  | some prod =>
    let pp := "products[" ++ i.fmt ++ "].measurements"
    let tk := pp ++ "[" ++ j.fmt ++ "].type"
    let ak := pp ++ "[" ++ j.fmt ++ "].analysis_key"
    let pm : Option Inst :=
      if cl.hasKey tk && cl.hasKey ak then
        some (mintInst onto mdsBase "AnalyticalResult"
          ("ProductMeasurement#" ++ rid ++ "_" ++ (cl.getD ak).pyStr ++
           "_Product_" ++ i.fmt ++ "_Measurement_" ++ j.fmt))
      else if cl.hasKey tk then
        some (mintInst onto mdsBase "AnalyticalResult"
          ("ProductMeasurement#" ++ rid ++ "_Product_" ++ i.fmt ++ "_Measurement_" ++ j.fmt))
      else Option.none
    match pm with
    | Option.none => erOk
    | some pmi =>
      listER [
        emitII st.labels "type" pmi.iri pmi.clsIri,
        emitII st.labels "is about" pmi.iri prod.iri,
        guardER (cl.hasKey (pp ++ "[" ++ j.fmt ++ "].percentage.value"))
          (listER [
            emit st.labels "has decimal value" (PyVal.s pmi.iri)
              (cl.getD (pp ++ "[" ++ j.fmt ++ "].percentage.value")),
            (match st.unitMap with
             | Option.none => raiseER (.attrErr "unit_mapping")
             | some um =>
               match unitLookup um (PyVal.s "PERCENTAGE") with
               | .error e => raiseER e
               | .ok iri => emit st.labels "uses measurement unit" (PyVal.s pmi.iri)
                   (PyVal.s iri))]),
        guardER (cl.hasKey (pp ++ "[" ++ j.fmt ++ "].float_value.value"))
          (emit st.labels "has decimal value" (PyVal.s pmi.iri)
            (cl.getD (pp ++ "[" ++ j.fmt ++ "].float_value.value"))),
        guardER (cl.hasKey (pp ++ "[" ++ j.fmt ++ "].string_value"))
          (emit st.labels "has text value" (PyVal.s pmi.iri)
            (cl.getD (pp ++ "[" ++ j.fmt ++ "].string_value"))),
        guardER (cl.getD tk == PyVal.s "AMOUNT" &&
            cl.hasKey (pp ++ "[" ++ j.fmt ++ "].amount.value") &&
            cl.hasKey (pp ++ "[" ++ j.fmt ++ "].amount.units"))
          (withKey cl "reactionID" (fun ridv =>
            let amount_added := mintInst onto ccoBase "ont00000768"
              ("Mass#" ++ ridv.pyStr ++ "_" ++ "_Product_" ++ i.fmt ++ "_Measurement_" ++ j.fmt)
            listER [
              emitII st.labels "type" amount_added.iri amount_added.clsIri,
              emitII st.labels "inheres in" amount_added.iri prod.iri,
              emitII st.labels "is about" pmi.iri amount_added.iri,
              emit st.labels "has decimal value" (PyVal.s pmi.iri)
                (cl.getD (pp ++ "[" ++ j.fmt ++ "].amount.value")),
              (match st.unitMap with
               | Option.none => raiseER (.attrErr "unit_mapping")
               | some um =>
                 match unitLookup um (cl.getD (pp ++ "[" ++ j.fmt ++ "].amount.units")) with
                 | .error e => raiseER e
                 | .ok iri => emit st.labels "uses measurement unit" (PyVal.s pmi.iri)
                     (PyVal.s iri))])),
        guardER (cl.hasKey (pp ++ "[" ++ j.fmt ++ "].retention_time.value") &&
            cl.hasKey (pp ++ "[" ++ j.fmt ++ "].retention_time.units"))
          (withKey cl "reactionID" (fun ridv =>
            let retention_time := mintInst onto mdsBase "RetentionTime"
              ("RetentionTime#" ++ ridv.pyStr ++ "_Product_" ++ i.fmt ++ "_Measurement_" ++ j.fmt)
            listER [
              emitII st.labels "type" retention_time.iri retention_time.clsIri,
              emitII st.labels "is about" retention_time.iri prod.iri,
              emitII st.labels "is about" pmi.iri retention_time.iri,
              emit st.labels "has datetime value" (PyVal.s retention_time.iri)
                (cl.getD (pp ++ "[" ++ j.fmt ++ "].retention_time.value")),
              (match st.unitMap with
               | Option.none => raiseER (.attrErr "unit_mapping")
               | some um =>
                 match unitLookup um (cl.getD (pp ++ "[" ++ j.fmt ++ "].retention_time.units")) with
                 | .error e => raiseER e
                 | .ok iri => emit st.labels "uses measurement unit"
                     (PyVal.s retention_time.iri) (PyVal.s iri))])),
        guardER (cl.hasKey (pp ++ "[" ++ j.fmt ++ "].uses_internal_standard"))
          (emit st.labels "uses internal standard" (PyVal.s pmi.iri)
            (cl.getD (pp ++ "[" ++ j.fmt ++ "].uses_internal_standard"))),
        guardER (cl.hasKey (pp ++ "[" ++ j.fmt ++ "].uses_authentic_standard"))
          (emit st.labels "uses authentic standard" (PyVal.s pmi.iri)
            (cl.getD (pp ++ "[" ++ j.fmt ++ "].uses_authentic_standard"))),
        guardER (cl.hasKey (pp ++ "[" ++ j.fmt ++ "].is_normalized"))
          (emit st.labels "is normalized" (PyVal.s pmi.iri)
            (cl.getD (pp ++ "[" ++ j.fmt ++ "].is_normalized")))]

/-- `_extract_product_measurement(outcome_list, product_dict)`. -/
def extract_product_measurement (st : KGInit) (ord : List String → List String)
    (rid : String) (cl : Dict) (pd : List (Idx × Inst)) : ER :=
  match st.onto with
  | Option.none => raiseER (.attrErr "mds")
  | some onto =>
    let index_list := extract_index_set ord (capNumBracket "products[") cl
    if index_list.isEmpty then erOk
    else
      listER (index_list.map (fun i =>
        let ind_list := extract_index_set ord
          (capNumBracketDot ("products[" ++ i.fmt ++ "].measurements[")) cl
        listER (ind_list.map (productMeasurementJ st onto rid cl pd i))))

/-- The tail of one `analyses` iteration, run with the current value of the
`analysis_type` variable: its use while unbound is Python's `NameError`. -/
def analysisRest (st : KGInit) (ord : List String → List String) (cl : Dict)
    (a : Idx) (atv : Option Inst) : ER :=
  let useAt := fun (f : Inst → ER) =>
    match atv with
    | some x => f x
    | Option.none => raiseER (.nameErr "analysis_type")
  let kd := "analyses[\"" ++ a.fmt ++ "\"].details"
  let ki := "analyses[\"" ++ a.fmt ++ "\"].is_of_isolated_species"
  let km := "analyses[\"" ++ a.fmt ++ "\"].instrument_manufacturer"
  let dataLead := "analyses[\"" ++ a.fmt ++ "\"].data[\""
  let data_set := extract_index_set ord (capQuoted dataLead) cl
  listER [
    guardER (cl.hasKey kd)
      (useAt (fun at0 => emit st.labels "details" (PyVal.s at0.iri) (cl.getD kd))),
    guardER (cl.hasKey ki)
      (useAt (fun at0 => emit st.labels "is of isolated species" (PyVal.s at0.iri)
        (cl.getD ki))),
    guardER (cl.hasKey km)
      (useAt (fun at0 => emit st.labels "has text value" (PyVal.s at0.iri) (cl.getD km))),
    guardER (!data_set.isEmpty)
      (listER (data_set.map (fun dx =>
        let dl := "analyses[\"" ++ a.fmt ++ "\"].data[\"" ++ dx.fmt ++ "\"]"
        listER [
          guardER (cl.hasKey (dl ++ ".float_value.value"))
            (useAt (fun at0 => emit st.labels "has decimal value" (PyVal.s at0.iri)
              (cl.getD (dl ++ ".float_value.value")))),
          guardER (cl.hasKey (dl ++ ".integer_value"))
            (useAt (fun at0 => emit st.labels "has integer value" (PyVal.s at0.iri)
              (cl.getD (dl ++ ".integer_value")))),
          guardER (cl.hasKey (dl ++ ".bytes_value"))
            (useAt (fun at0 => emit st.labels "has text value" (PyVal.s at0.iri)
              (cl.getD (dl ++ ".bytes_value")))),
          guardER (cl.hasKey (dl ++ ".string_value"))
            (useAt (fun at0 => emit st.labels "has text value" (PyVal.s at0.iri)
              (cl.getD (dl ++ ".string_value")))),
          guardER (cl.hasKey (dl ++ ".description"))
            (useAt (fun at0 => emit st.labels "has text value" (PyVal.s at0.iri)
              (cl.getD (dl ++ ".description")))),
          guardER (cl.hasKey (dl ++ ".format"))
            (useAt (fun at0 => emit st.labels "has text value" (PyVal.s at0.iri)
              (cl.getD (dl ++ ".format"))))])))]

/-- One `analyses` iteration: rebind `analysis_type` when this analysis has a
`type` entry, then run the remaining guarded assertions on the (possibly
stale) variable. -/
def analysisA (st : KGInit) (ord : List String → List String) (rid : String)
    (cl : Dict) (a : Idx) (atv : Option Inst) : ER × Option Inst :=
  let tk := "analyses[\"" ++ a.fmt ++ "\"].type"
  if cl.hasKey tk then
    match st.onto with
    | Option.none => (raiseER (.attrErr "mds"), atv)
    | some onto =>
      let at0 := mintInst onto mdsBase "AnalyticalTechnique"
        ("AnalyticalTechnique#" ++ rid ++ "_" ++ a.fmt)
      (seqER
        (listER [
          emitII st.labels "type" at0.iri at0.clsIri,
          emit st.labels "details" (PyVal.s at0.iri) (cl.getD tk)])
        (analysisRest st ord cl a (some at0)), some at0)
  else
    (analysisRest st ord cl a atv, atv)

/-- The per-outcome body of `_process_reaction_outcomes`, threading the
`product_dict` and `analysis_type` variables of the enclosing method. -/
def outcomeItemER (st : KGInit) (ord : List String → List String) (rid : String)
    (item : Dict) (pdv : Option (List (Idx × Inst))) (atv : Option Inst) :
    ER × Option (List (Idx × Inst)) × Option Inst :=
  let rtER :=
    guardER (item.getD "reaction_time" == PyVal.b true &&
        item.hasKey "reaction_time.value" && item.hasKey "reaction_time.units")
      (match st.onto with
       | Option.none => raiseER (.attrErr "mds")
       | some onto =>
         let reaction_time := mintInst onto mdsBase "ReactionTime" ("ReactionTime#" ++ rid)
         listER [
          emitII st.labels "type" reaction_time.iri reaction_time.clsIri,
          (match st.chemical_reaction with
           | some cr => emitII st.labels "occupies temporal region" cr.iri reaction_time.iri
           | Option.none => raiseER (.attrErr "chemical_reaction")),
          emit st.labels "has datetime value" (PyVal.s reaction_time.iri)
            (item.getD "reaction_time.value"),
          (match st.unitMap with
           | Option.none => raiseER (.attrErr "unit_mapping")
           | some um =>
             match unitLookup um (item.getD "reaction_time.units") with
             | .error e => raiseER e
             | .ok iri => emit st.labels "uses measurement unit"
                 (PyVal.s reaction_time.iri) (PyVal.s iri))])
  let pER := extract_components st ord rid item Option.none "product"
  let pdv' := match pER.1.2 with
    | Option.none => some pER.2
    | some _ => pdv
  let prodER := catchER pER.1
  let mER := catchER (match pdv' with
    | Option.none => raiseER (.nameErr "product_dict")
    | some pd => extract_product_measurement st ord rid item pd)
  let ap : ER × Option Inst :=
    if item.getD "analyses" == PyVal.b true then
      let analyses_set := extract_index_set ord (capQuoted "analyses[\"") item
      analyses_set.foldl (fun (acc : ER × Option Inst) a =>
        match acc.1.2 with
        | some _ => acc
        | Option.none =>
          let p := analysisA st ord rid item a acc.2
          (seqER acc.1 p.1, p.2)) (erOk, atv)
    else (erOk, atv)
  (listER [rtER, prodER, mER, ap.1], pdv', ap.2)

/-- `_process_reaction_outcomes()`. -/
def process_reaction_outcomes (st : KGInit) (ord : List String → List String)
    (rid : String) (items : List Dict) : ER :=
  (items.foldl (fun (acc : ER × Option (List (Idx × Inst)) × Option Inst) item =>
    match acc.1.2 with
    | some _ => acc
    | Option.none =>
      let p := outcomeItemER st ord rid item acc.2.1 acc.2.2
      (seqER acc.1 p.1, p.2)) (erOk, Option.none, Option.none)).1

/-- `_process_reaction_setup()`: a `ReactionSetup` instance asserted to
precede the reaction (no type assertion is made for it). -/
def process_reaction_setup (st : KGInit) (rid : String) (items : List Dict) : ER :=
  listER (items.map (fun _ =>
    match st.onto with
    | Option.none => raiseER (.attrErr "mds")
    | some onto =>
      let reaction_setup := mintInst onto mdsBase "ReactionSetup" ("ReactionSetup#" ++ rid)
      match st.chemical_reaction with
      | some cr => emitII st.labels "precedes" reaction_setup.iri cr.iri
      | Option.none => raiseER (.attrErr "chemical_reaction")))

/-! ## `generate_instances`, `generate_data_graph`, `extract_reaction` -/

/-- The result of `generate_instances`: the initialization state, the
assertions appended by the section passes, and the pass names whose
exceptions were caught and logged (in occurrence order). -/
structure GenOut where
  st : KGInit
  contribs : List Contrib
  errlog : List String

/-- One `try: pass() except: log` boundary of `generate_instances`. -/
def tryPass (name : String) (acc : List Contrib × List String) (er : ER) :
    List Contrib × List String :=
  (acc.1 ++ er.1, acc.2 ++ (match er.2 with
    | some _ => [name]
    | Option.none => []))

/-- Sequential execution of named try/except pass boundaries. -/
def runPasses (acc : List Contrib × List String) (l : List (String × ER)) :
    List Contrib × List String :=
  l.foldl (fun a q => tryPass q.1 a q.2) acc

/-- `generate_instances(mds_file_path)`: initialization followed by the seven
per-section passes, each in its own try/except, in the fixed source order. -/
def generate_instances (loadOnto : Except String Onto)
    (ord : List String → List String) (fs : FlatState) : GenOut :=
  let p := initialize_instance_dict loadOnto fs.rid
  let st := p.1
  let acc0 : List Contrib × List String :=
    ([], match p.2 with
      | some _ => ["initialize"]
      | Option.none => [])
  let acc1 := tryPass "identifiers" acc0 (guardER (!fs.reaction_identifiers.isEmpty)
    (process_reaction_identifiers st fs.rid fs.reaction_identifiers))
  let acc2 := tryPass "inputs" acc1 (guardER (!fs.reaction_inputs.isEmpty)
    (process_reaction_inputs st ord fs.rid fs.reaction_inputs))
  let acc3 := tryPass "conditions" acc2 (guardER (!fs.reaction_conditions.isEmpty)
    (process_reaction_conditions st ord fs.rid fs.reaction_conditions))
  let acc4 := tryPass "notes" acc3 (guardER (!fs.reaction_notes.isEmpty)
    (process_reaction_notes st fs.reaction_notes))
  let acc5 := tryPass "workups" acc4 (guardER (!fs.reaction_workups.isEmpty)
    (process_reaction_workups st ord fs.rid fs.reaction_workups))
  let acc6 := tryPass "outcomes" acc5 (guardER (!fs.reaction_outcomes.isEmpty)
    (process_reaction_outcomes st ord fs.rid fs.reaction_outcomes))
  let acc7 := tryPass "setup" acc6 (guardER (!fs.reaction_setup.isEmpty)
    (process_reaction_setup st fs.rid fs.reaction_setup))
  { st := st, contribs := acc7.1, errlog := acc7.2 }

/-- An RDF triple added to the output graph: IRI-valued or literal-valued. -/
inductive Triple where
  | obj (s p o : String)
  | lit (s p : String) (v : PyVal)
  deriving DecidableEq

/-- The triple-emission loop of `generate_data_graph`: for every catalog
label, look up the accumulated pairs; `Object Property` entries become
IRI-IRI-IRI triples, `Datatype Property` entries become literal triples, and
any other kind (notably `Annotation Property`) emits nothing. -/
def graphTriples (pm : List (String × String × String)) (labels : List String)
    (contribs : List Contrib) : Except Err (List Triple) :=
  foldE (fun ts (entry : String × String × String) =>
    if entry.1 ∈ labels then
      let items := contribs.filter (fun c => c.1 == entry.1)
      if entry.2.2 = "Object Property" then
        .ok (ts ++ items.map (fun c => Triple.obj c.2.1.pyStr entry.2.1 c.2.2.pyStr))
      else if entry.2.2 = "Datatype Property" then
        .ok (ts ++ items.map (fun c => Triple.lit c.2.1.pyStr entry.2.1 c.2.2))
      else .ok ts
    else .error (.keyErr entry.1)) [] pm

/-- `generate_data_graph(dataset_id, save_file_path)`: emit the triples and
serialize them under the deterministic artifact name; every exception inside
the try (catalog attribute missing, unsupported format, serializer failure)
is caught and turns the result into `None`.  `writeRes` is the outcome of the
`graph.serialize` call on a given artifact name. -/
def generate_data_graph (st : KGInit) (passContribs : List Contrib)
    (fmt dataset_id rid : String) (writeRes : String → Except String Unit) :
    Option (List Triple × String) :=
  let r : Except Err (List Triple × String) :=
    match st.propMeta with
    | Option.none => .error (.attrErr "prop_metadata_dict")
    | some pm =>
      match st.labels with
      | Option.none => .error (.attrErr "instance_dict")
      | some labels =>
        match graphTriples pm labels (st.initContribs ++ passContribs) with
        | .error e => .error e
        | .ok ts =>
          if fmt = "turtle" then
            let nm := "mds_dataset-" ++ dataset_id ++ "_reaction-" ++ rid ++ ".ttl"
            match writeRes nm with
            | .ok _ => .ok (ts, nm)
            | .error m => .error (.valueErr m)
          else if fmt = "json-ld" then
            let nm := "mds_dataset-" ++ dataset_id ++ "_reaction-" ++ rid ++ ".jsonld"
            match writeRes nm with
            | .ok _ => .ok (ts, nm)
            | .error m => .error (.valueErr m)
          else .error (.valueErr ("unsupported format: " ++ fmt))
  match r with
  | .ok v => some v
  | .error _ => Option.none

/-- The per-reaction pipeline
`ReactionKG(reaction, fmt).generate_reaction().generate_instances(owl).generate_data_graph(...)`:
only `__init__` and `generate_reaction` can raise; the later stages catch
their own exceptions. -/
def processReaction (chem : ChemTool) (ord : List String → List String)
    (loadOnto : Except String Onto) (fmt : String)
    (writeRes : String → Except String Unit) (dataset_id : String)
    (msg : ReactionMsg) : Except Err (Option (List Triple × String)) := do
  let rid ← reactionKGId msg
  let fs ← generate_reaction chem rid msg
  let g := generate_instances loadOnto ord fs
  return generate_data_graph g.st g.contribs fmt dataset_id rid writeRes

/-- A short rendering of a raised exception for the error log. -/
def errStr : Err → String
  | .keyErr k => "KeyError: " ++ k
  | .attrErr a => "AttributeError: " ++ a
  | .argErr m => "ArgumentError: " ++ m
  | .nameErr m => "NameError: " ++ m
  | .valueErr m => "ValueError: " ++ m
  | .indexErr m => "IndexError: " ++ m

/-- `DatasetProcessor.extract_reaction`: every reaction whose pipeline raises
goes to the error list; every other reaction - whether or not an artifact was
produced - is appended to the success list, and processing continues. -/
def extract_reaction (chem : ChemTool) (ord : List String → List String)
    (loadOnto : Except String Onto) (fmt : String)
    (writeRes : String → Except String Unit) (dataset_id : String)
    (reactions : List ReactionMsg) :
    List (List String) × List (List String) :=
  reactions.foldl (fun acc msg =>
    match processReaction chem ord loadOnto fmt writeRes dataset_id msg with
    | .ok _ => (acc.1 ++ [[dataset_id, msg.reaction_id]], acc.2)
    | .error e => (acc.1, acc.2 ++ [[msg.reaction_id, errStr e]])) ([], [])

/-! ## Concrete collaborator environments used by the closed theorems -/

/-- A small ontology carrying the property labels the converter appends to. -/
def demoOnto : Onto := {
  objectProps := [("is input of", "P:isInputOf"), ("environs", "P:environs"),
    ("has output", "P:hasOutput"), ("precedes", "P:precedes"),
    ("is about", "P:isAbout"), ("designates", "P:designates"),
    ("member part of", "P:memberPartOf"), ("has process part", "P:hasProcessPart"),
    ("inheres in", "P:inheresIn"), ("occupies temporal region", "P:otr"),
    ("has occurent part", "P:hop"), ("participates in", "P:partIn"),
    ("bearer of", "P:bearerOf"), ("is made of", "P:isMadeOf"),
    ("affects", "P:affects"), ("uses measurement unit", "P:umu")]
  annotationProps := [("details", "P:details")]
  dataProps := [("has text value", "P:htv"), ("has decimal value", "P:hdv"),
    ("has datetime value", "P:hdtv"), ("has integer value", "P:hiv"),
    ("is mapped", "P:isMapped"), ("is heterogeneous", "P:ishet"),
    ("forms precipitate", "P:fp"), ("is exothermic", "P:iex"),
    ("off gasses", "P:og"), ("is sensitive to moisture", "P:ism"),
    ("is sensitive to oxygen", "P:iso2"), ("is sensitive to light", "P:isl"),
    ("safety notes", "P:sn"), ("procedure details", "P:pd"),
    ("is of isolated species", "P:iois"), ("is limiting", "P:isLim"),
    ("is desired product", "P:idp"), ("isolated color", "P:ic"),
    ("addition order", "P:ao"), ("keep phase", "P:kp"), ("is automated", "P:ia"),
    ("uses internal standard", "P:uis"), ("uses authentic standard", "P:uas"),
    ("is normalized", "P:isNorm")]
  classIri := fun c => "C:" ++ c
  classLabel := fun c => "L " ++ c
  unitEnt := fun u => some ("U:" ++ u)
  reprName := fun n => "onto." ++ n }

/-- A cheminformatics stub that rejects every structure string, as RDKit does
on malformed input (`MolFrom...` returns a null molecule). -/
def rejectingChem : ChemTool := {
  parseInchi := fun _ => Option.none
  parseSmiles := fun _ => Option.none
  toSmiles := id
  toInchi := id
  toInchiKey := id
  toCXSmiles := id }

/-- A serializer collaborator whose write always succeeds. -/
def okWrite : String → Except String Unit := fun _ => .ok ()

/-- A flattened state whose outcomes pass raises (an analysis entry with a
`details` key but no `type` key dereferences the unbound `analysis_type`)
while notes, workups and setup still carry assertions. -/
def c3FS : FlatState := {
  rid := "r1"
  reaction_notes := [[("is_heterogeneous", PyVal.b true)]]
  reaction_workups := [[("type", PyVal.none), ("Index", PyVal.i 0), ("details", PyVal.none)]]
  reaction_outcomes := [[("analyses", PyVal.b true), ("analyses[\"A\"].details", PyVal.s "d")]]
  reaction_setup := [[]] }

/-- An outcome whose analyses map holds two typed analyses and one untyped
analysis carrying only a `details` entry: the set-iteration order then
decides which (if any) `AnalyticalTechnique` instance receives the stray
assertion. -/
def c8Outcome : OutcomeMsg := {
  analyses := true
  row := [("analyses[\"B\"].type", PyVal.s "GC"), ("analyses[\"C\"].type", PyVal.s "LC"),
          ("analyses[\"A\"].details", PyVal.s "d")] }

def c8Rxn : ReactionMsg := { reaction_id := "ord-r1", outcomes := [c8Outcome] }

/-- A workup step with one (identifier-free) input component. -/
def c9Workup : WorkupMsg := { inputPresent := true, inputComponents := [{ identifiers := [] }] }

/-- The flattened image of `c9Workup` at list position 3. -/
def c9Dict : Dict :=
  [("reactionID", PyVal.s "r9"), ("Index", PyVal.i 3), ("type", PyVal.none),
   ("details", PyVal.none), ("duration", PyVal.none), ("input", PyVal.b true),
   ("amount", PyVal.none), ("temperature", PyVal.none), ("keep_phase", PyVal.none),
   ("stirring", PyVal.none), ("target_ph", PyVal.none), ("is_automated", PyVal.none),
   ("input.components[0].INCHI_KEY", PyVal.none), ("InputKey", PyVal.s "workup_0")]

/-- A concrete flattened dictionary for exercising the index extractor. -/
def c2Dict : Dict := [("components[2]", PyVal.i 1), ("components[0]", PyVal.i 1)]

/-- A minimal reaction record: only an id, every section empty. -/
def c4Rxn : ReactionMsg := { reaction_id := "ord-r4" }

/-- The flattened image of `c4Rxn` (the three always-populated section rows
hold the reaction id and the schema fields, all unset). -/
def c4FS : FlatState := {
  rid := "r4"
  reaction_setup := [[("reactionID", PyVal.s "r4"), ("vessel", PyVal.none),
    ("is_automated", PyVal.none), ("automation_platform", PyVal.none),
    ("automation_code", PyVal.none), ("environment", PyVal.none)]]
  reaction_conditions := [[("reactionID", PyVal.s "r4"), ("temperature", PyVal.none),
    ("pressure", PyVal.none), ("stirring", PyVal.none), ("illumination", PyVal.none),
    ("electrochemistry", PyVal.none), ("flow", PyVal.none), ("reflux", PyVal.none),
    ("ph", PyVal.none), ("conditions_are_dynamic", PyVal.none), ("details", PyVal.none)]]
  reaction_notes := [[("reactionID", PyVal.s "r4"), ("is_heterogeneous", PyVal.none),
    ("forms_precipitate", PyVal.none), ("is_exothermic", PyVal.none),
    ("offgasses", PyVal.none), ("is_sensitive_to_moisture", PyVal.none),
    ("is_sensitive_to_oxygen", PyVal.none), ("is_sensitive_to_light", PyVal.none),
    ("safety_notes", PyVal.none), ("procedure_details", PyVal.none)]] }

/-- A reaction whose only component identifier is an unparseable InChI. -/
def c1Rxn : ReactionMsg := {
  reaction_id := "ord-r2"
  inputs := [{ key := "m1",
               components := [{ identifiers := [⟨[("type", PyVal.s "INCHI"), ("value", PyVal.s "bad")]⟩] }] }] }

/-! ## Dictionary lemmas -/

theorem Dict.get?_set (d : Dict) (k k' : String) (v : PyVal) :
    (d.set k v).get? k' = if k' = k then some v else d.get? k' := by
  induction d with
  | nil =>
    by_cases h : k' = k
    · simp [Dict.set, Dict.get?, h]
    · have h2 : ¬k = k' := fun hc => h hc.symm
      simp [Dict.set, Dict.get?, h, h2]
  | cons kv t ih =>
    by_cases h1 : kv.1 = k
    · by_cases h2 : k' = k
      · subst h2
        simp [Dict.set, Dict.get?, h1]
      · have h3 : ¬kv.1 = k' := fun hc => h2 ((h1.symm.trans hc).symm)
        have h4 : ¬k = k' := fun hc => h2 hc.symm
        simp [Dict.set, Dict.get?, h1, h2, h3, h4]
    · by_cases h3 : kv.1 = k'
      · have h2 : ¬k' = k := fun hc => h1 (h3.trans hc)
        simp [Dict.set, Dict.get?, h1, h2, h3]
      · simp [Dict.set, Dict.get?, h1, h3, ih]

theorem Dict.hasKey_iff (d : Dict) (k : String) :
    d.hasKey k = true ↔ ∃ v, d.get? k = some v := by
  induction d with
  | nil => simp [Dict.hasKey, Dict.get?]
  | cons kv t ih =>
    by_cases h : kv.1 = k
    · simp [Dict.hasKey, Dict.get?, h]
    · simp [Dict.hasKey, Dict.get?, h, ih]

theorem Dict.keyList_mem_of_get? (d : Dict) (k : String) (v : PyVal)
    (h : d.get? k = some v) : k ∈ d.keyList := by
  induction d with
  | nil => simp [Dict.get?] at h
  | cons kv t ih =>
    by_cases hf : kv.1 = k
    · simp [Dict.keyList, hf]
    · simp only [Dict.get?, if_neg hf] at h
      simp only [Dict.keyList, List.map_cons, List.mem_cons]
      exact Or.inr (ih h)

theorem Dict.get?_updateMany_not_has (d row : Dict) (k : String)
    (h : Dict.hasKey row k = false) : (d.updateMany row).get? k = d.get? k := by
  induction row generalizing d with
  | nil => simp [Dict.updateMany]
  | cons e rest ih =>
    simp only [Dict.hasKey, Bool.or_eq_false_iff, decide_eq_false_iff_not] at h
    rw [show Dict.updateMany d (e :: rest) = Dict.updateMany (d.set e.1 e.2) rest from rfl]
    rw [ih _ h.2, Dict.get?_set]
    have h2 : ¬k = e.1 := fun hc => h.1 hc.symm
    simp [h2]

theorem Dict.get?_updateMany (d row : Dict) (k : String)
    (hk : Dict.hasKey row k = true) (hnd : row.keyList.Nodup) :
    (d.updateMany row).get? k = row.get? k := by
  induction row generalizing d with
  | nil => simp [Dict.hasKey] at hk
  | cons e rest ih =>
    simp only [Dict.keyList, List.map_cons, List.nodup_cons] at hnd
    rw [show Dict.updateMany d (e :: rest) = Dict.updateMany (d.set e.1 e.2) rest from rfl]
    by_cases h : e.1 = k
    · subst h
      have hrest : Dict.hasKey rest e.1 = false := by
        by_contra hc
        rw [Bool.not_eq_false] at hc
        obtain ⟨v, hv⟩ := (Dict.hasKey_iff rest e.1).mp hc
        exact hnd.1 (Dict.keyList_mem_of_get? rest e.1 v hv)
      rw [Dict.get?_updateMany_not_has _ _ _ hrest, Dict.get?_set]
      simp [Dict.get?]
    · have hk2 : Dict.hasKey rest k = true := by
        simp only [Dict.hasKey, Bool.or_eq_true, decide_eq_true_eq] at hk
        rcases hk with h1 | h2
        · exact absurd h1 h
        · exact h2
      rw [ih _ hk2 hnd.2]
      simp [Dict.get?, h]

/-! ## Emission-algebra lemmas -/

theorem seqER_erOk_left (b : ER) : seqER erOk b = b := by
  cases b
  simp [seqER, erOk]

theorem seqER_assoc (a b c : ER) : seqER (seqER a b) c = seqER a (seqER b c) := by
  rcases a with ⟨ca, _ | e⟩
  · rcases b with ⟨cb, _ | e2⟩
    · simp [seqER, List.append_assoc]
    · simp [seqER]
  · simp [seqER]

theorem foldl_seqER (acc : ER) (l : List ER) :
    l.foldl seqER acc = seqER acc (listER l) := by
  induction l generalizing acc with
  | nil =>
    rcases acc with ⟨c, _ | e⟩ <;> simp [listER, seqER, erOk]
  | cons a t ih =>
    simp only [listER, List.foldl_cons] at ih ⊢
    rw [ih, ih (seqER erOk a), seqER_erOk_left, seqER_assoc]

theorem listER_cons (a : ER) (l : List ER) :
    listER (a :: l) = seqER a (listER l) := by
  show List.foldl seqER erOk (a :: l) = _
  rw [List.foldl_cons, foldl_seqER (seqER erOk a) l, seqER_erOk_left]

theorem listER_ok (l : List ER) (h : ∀ x ∈ l, x.2 = Option.none) :
    listER l = ((l.map (fun x => x.1)).flatten, Option.none) := by
  induction l with
  | nil => simp [listER, erOk]
  | cons a t ih =>
    rw [listER_cons, ih (fun x hx => h x (List.mem_cons_of_mem _ hx))]
    have ha := h a (List.mem_cons_self _ _)
    rcases a with ⟨ca, ea⟩
    simp only at ha
    subst ha
    simp [seqER]

/-! ## Set-iteration orders -/

theorem validOrder_pyDedup : ValidOrder pyDedup := by
  intro l
  exact ⟨l.nodup_dedup, fun _ => List.mem_dedup⟩

theorem validOrder_pyDedupRev : ValidOrder pyDedupRev := by
  intro l
  refine ⟨List.nodup_reverse.mpr l.nodup_dedup, fun s => ?_⟩
  simp [pyDedupRev, List.mem_reverse, List.mem_dedup]

/-! ## Capture-classification lemmas -/

theorem takeDigits_all_digits : ∀ cs : List Char, ∀ c ∈ (takeDigits cs).1, c.isDigit := by
  intro cs
  induction cs with
  | nil => simp [takeDigits]
  | cons a t ih =>
    by_cases h : a.isDigit
    · simp only [takeDigits, h, if_pos]
      intro c hc
      rcases List.mem_cons.mp hc with rfl | hc2
      · exact h
      · exact ih c hc2
    · simp [takeDigits, h]

theorem pyIsDigit_mk (ds : List Char) (h1 : ds ≠ []) (h2 : ∀ c ∈ ds, c.isDigit) :
    pyIsDigit (String.mk ds) = true := by
  simp only [pyIsDigit, Bool.and_eq_true, decide_eq_true_eq, List.all_eq_true]
  refine ⟨?_, ?_⟩
  · intro heq
    apply h1
    have : (String.mk ds).data = ("" : String).data := by rw [heq]
    simpa using this
  · intro x hx
    exact h2 x (by simpa using hx)

theorem capNumBracket_digits (lead k c : String)
    (h : capNumBracket lead k = some c) : pyIsDigit c = true := by
  unfold capNumBracket at h
  split at h
  next rest heq =>
    simp only [] at h
    split at h
    case isTrue h2 =>
      have hc : String.mk (takeDigits rest).1 = c := by
        simpa using h
      subst hc
      exact pyIsDigit_mk _ h2.1 (takeDigits_all_digits _)
    case isFalse => simp at h
  next => simp at h

theorem capNumBracketDot_digits (lead k c : String)
    (h : capNumBracketDot lead k = some c) : pyIsDigit c = true := by
  unfold capNumBracketDot at h
  split at h
  next rest heq =>
    simp only [] at h
    split at h
    case isTrue h2 =>
      have hc : String.mk (takeDigits rest).1 = c := by
        simpa using h
      subst hc
      exact pyIsDigit_mk _ h2.1 (takeDigits_all_digits _)
    case isFalse => simp at h
  next => simp at h

/-- An extraction whose pattern can only capture digit runs does not consult
the set-iteration order. -/
theorem extract_index_set_digitCap (o o2 : List String → List String)
    (cap : String → Option String) (d : Dict)
    (h : ∀ k c, cap k = some c → pyIsDigit c = true) :
    extract_index_set o cap d = extract_index_set o2 cap d := by
  simp only [extract_index_set]
  have hstr : (d.keyList.filterMap cap).filter (fun c => !pyIsDigit c) = [] := by
    apply List.filter_eq_nil_iff.mpr
    intro c hc
    obtain ⟨k, _, hk⟩ := List.mem_filterMap.mp hc
    simp [h k c hk]
  rw [hstr]
  simp

/-- A caught pass never disturbs the head of an already nonempty error log. -/
theorem tryPass_head (n : String) (acc : List Contrib × List String) (er : ER)
    (s : String) (h : acc.2.head? = some s) : (tryPass n acc er).2.head? = some s := by
  rcases acc with ⟨c, l⟩
  cases l with
  | nil => simp at h
  | cons a t =>
    simp only [List.head?] at h
    simpa [tryPass] using h

/-- When initialization raised, the error log opens with the `initialize`
entry whatever the later passes do. -/
theorem generate_instances_errlog_init (loadOnto : Except String Onto)
    (ord : List String → List String) (fs : FlatState)
    (h : (initialize_instance_dict loadOnto fs.rid).2.isSome = true) :
    (generate_instances loadOnto ord fs).errlog.head? = some "initialize" := by
  simp only [generate_instances]
  apply tryPass_head
  apply tryPass_head
  apply tryPass_head
  apply tryPass_head
  apply tryPass_head
  apply tryPass_head
  apply tryPass_head
  rcases hm : (initialize_instance_dict loadOnto fs.rid).2 with _ | e
  · rw [hm] at h
    simp at h
  · simp [hm]

/-! ## Set-order invariance of the digit-captured sections -/

theorem extract_num_ord (o1 o2 : List String → List String) (lead : String) (d : Dict) :
    extract_index_set o1 (capNumBracket lead) d =
      extract_index_set o2 (capNumBracket lead) d :=
  extract_index_set_digitCap o1 o2 _ d (fun k c h => capNumBracket_digits lead k c h)

theorem extract_numDot_ord (o1 o2 : List String → List String) (lead : String) (d : Dict) :
    extract_index_set o1 (capNumBracketDot lead) d =
      extract_index_set o2 (capNumBracketDot lead) d :=
  extract_index_set_digitCap o1 o2 _ d (fun k c h => capNumBracketDot_digits lead k c h)

theorem extract_compound_identifiers_ord (o1 o2 : List String → List String)
    (st : KGInit) (rid : String) (cl : Dict) (i : Idx) (context pfx : String)
    (comp : Inst) :
    extract_compound_identifiers st o1 rid cl i context pfx comp =
      extract_compound_identifiers st o2 rid cl i context pfx comp := by
  simp only [extract_compound_identifiers, extract_numDot_ord o1 o2]

theorem process_temperature_ord (o1 o2 : List String → List String)
    (st : KGInit) (rid : String) (cl : Dict) (comp : Option Inst) (context : String) :
    process_temperature st o1 rid cl comp context =
      process_temperature st o2 rid cl comp context := by
  simp only [process_temperature, extract_num_ord o1 o2]

theorem extractComponentsIndex_ord (o1 o2 : List String → List String)
    (st : KGInit) (rid : String) (cl : Dict) (node : Option Inst)
    (context pfx : String) (i : Idx) :
    extractComponentsIndex st o1 rid cl node context pfx i =
      extractComponentsIndex st o2 rid cl node context pfx i := by
  simp only [extractComponentsIndex, extract_compound_identifiers_ord o1 o2,
    process_temperature_ord o1 o2]

theorem extract_components_ord (o1 o2 : List String → List String)
    (st : KGInit) (rid : String) (cl : Dict) (node : Option Inst) (context : String) :
    extract_components st o1 rid cl node context =
      extract_components st o2 rid cl node context := by
  simp only [extract_components, extract_num_ord o1 o2, extractComponentsIndex_ord o1 o2]

theorem inputItemER_ord (o1 o2 : List String → List String)
    (st : KGInit) (rid : String) (item : Dict) :
    inputItemER st o1 rid item = inputItemER st o2 rid item := by
  simp only [inputItemER, extract_components_ord o1 o2]

theorem process_reaction_inputs_ord (o1 o2 : List String → List String)
    (st : KGInit) (rid : String) (items : List Dict) :
    process_reaction_inputs st o1 rid items =
      process_reaction_inputs st o2 rid items := by
  unfold process_reaction_inputs
  rw [show inputItemER st o1 rid = inputItemER st o2 rid from
    funext (inputItemER_ord o1 o2 st rid)]

theorem conditionsItemER_ord (o1 o2 : List String → List String)
    (st : KGInit) (rid : String) (item : Dict) :
    conditionsItemER st o1 rid item = conditionsItemER st o2 rid item := by
  simp only [conditionsItemER, process_temperature_ord o1 o2]

theorem process_reaction_conditions_ord (o1 o2 : List String → List String)
    (st : KGInit) (rid : String) (items : List Dict) :
    process_reaction_conditions st o1 rid items =
      process_reaction_conditions st o2 rid items := by
  unfold process_reaction_conditions
  rw [show conditionsItemER st o1 rid = conditionsItemER st o2 rid from
    funext (conditionsItemER_ord o1 o2 st rid)]

theorem workupItemER_ord (o1 o2 : List String → List String)
    (st : KGInit) (rid : String) (item : Dict) :
    workupItemER st o1 rid item = workupItemER st o2 rid item := by
  simp only [workupItemER, extract_components_ord o1 o2, process_temperature_ord o1 o2]

theorem process_reaction_workups_ord (o1 o2 : List String → List String)
    (st : KGInit) (rid : String) (items : List Dict) :
    process_reaction_workups st o1 rid items =
      process_reaction_workups st o2 rid items := by
  unfold process_reaction_workups
  rw [show workupItemER st o1 rid = workupItemER st o2 rid from
    funext (workupItemER_ord o1 o2 st rid)]

theorem extract_product_measurement_ord (o1 o2 : List String → List String)
    (st : KGInit) (rid : String) (cl : Dict) (pd : List (Idx × Inst)) :
    extract_product_measurement st o1 rid cl pd =
      extract_product_measurement st o2 rid cl pd := by
  simp only [extract_product_measurement, extract_num_ord o1 o2, extract_numDot_ord o1 o2]

theorem outcomeItemER_ord (o1 o2 : List String → List String)
    (st : KGInit) (rid : String) (item : Dict)
    (pdv : Option (List (Idx × Inst))) (atv : Option Inst)
    (h : (Dict.getD item "analyses" == PyVal.b true) = false) :
    outcomeItemER st o1 rid item pdv atv = outcomeItemER st o2 rid item pdv atv := by
  simp only [outcomeItemER, extract_components_ord o1 o2,
    extract_product_measurement_ord o1 o2, h, Bool.false_eq_true, if_false]

theorem process_reaction_outcomes_ord (o1 o2 : List String → List String)
    (st : KGInit) (rid : String) (items : List Dict)
    (h : ∀ item ∈ items, (Dict.getD item "analyses" == PyVal.b true) = false) :
    process_reaction_outcomes st o1 rid items =
      process_reaction_outcomes st o2 rid items := by
  unfold process_reaction_outcomes
  congr 1
  apply List.foldl_ext
  intro acc item hmem
  simp only [outcomeItemER_ord o1 o2 st rid item acc.2.1 acc.2.2 (h item hmem)]

/-- With no `analyses` mapping in any outcome row, the whole instance builder
never consults the set-iteration order. -/
theorem generate_instances_ord (o1 o2 : List String → List String)
    (loadOnto : Except String Onto) (fs : FlatState)
    (h : ∀ item ∈ fs.reaction_outcomes,
      (Dict.getD item "analyses" == PyVal.b true) = false) :
    generate_instances loadOnto o1 fs = generate_instances loadOnto o2 fs := by
  simp only [generate_instances,
    process_reaction_inputs_ord o1 o2,
    process_reaction_conditions_ord o1 o2,
    process_reaction_workups_ord o1 o2,
    process_reaction_outcomes_ord o1 o2 _ fs.rid fs.reaction_outcomes h]

/-! ## Claim theorems -/

/-- C1: the specification claims that an unparseable highest-priority
structure string makes `generate_compound_identifiers` return the original
list unchanged with a `None` canonical key and "no exception escapes".  The
code instead calls `Chem.MolToSmiles` on the null molecule whenever the InChI
fails to parse and no SMILES identifier is already present (the derived-SMILES
append is indented outside the `if rdkit_mol:` guard), so the call raises.
The claim is right about the intent and the code is wrong: evaluated at the
failing input `[{type: INCHI, value: "bad"}]` the embedded code raises an
`ArgumentError` instead of degrading. -/
theorem C1_unparseable_structure_raises :
    generate_compound_identifiers rejectingChem
      [⟨[("type", PyVal.s "INCHI"), ("value", PyVal.s "bad")]⟩] =
      .error (.argErr "MolTo: molecule is None") ∧
    generate_compound_identifiers rejectingChem
      [⟨[("type", PyVal.s "SMILES"), ("value", PyVal.s "bad")]⟩] =
      .error (.argErr "MolTo: molecule is None") := by
  exact ⟨rfl, rfl⟩

/-- C2: `_extract_index_set` returns the empty sequence when no key matches;
the ascending-sorted deduplicated integers when at least one matching capture
is all digits (mixed numeric and string captures collapse to numeric-only);
and the deduplicated textual captures, in an unspecified set order, only when
no matching capture is numeric. -/
theorem C2_extract_index_set_contract (o : List String → List String)
    (ho : ValidOrder o) (cap : String → Option String) (d : Dict) :
    ((∀ k ∈ d.keyList, cap k = Option.none) → extract_index_set o cap d = []) ∧
    ((d.keyList.filterMap cap).filter pyIsDigit ≠ [] →
      extract_index_set o cap d =
        (sortedDedup (((d.keyList.filterMap cap).filter pyIsDigit).map strToNat)).map Idx.num ∧
      (sortedDedup (((d.keyList.filterMap cap).filter pyIsDigit).map strToNat)).Sorted (· < ·) ∧
      (∀ n : Nat, n ∈ sortedDedup (((d.keyList.filterMap cap).filter pyIsDigit).map strToNat) ↔
        n ∈ ((d.keyList.filterMap cap).filter pyIsDigit).map strToNat)) ∧
    ((d.keyList.filterMap cap).filter pyIsDigit = [] →
      (d.keyList.filterMap cap).filter (fun c => !pyIsDigit c) ≠ [] →
      extract_index_set o cap d =
        (o ((d.keyList.filterMap cap).filter (fun c => !pyIsDigit c))).map Idx.str ∧
      (o ((d.keyList.filterMap cap).filter (fun c => !pyIsDigit c))).Nodup ∧
      (∀ x, x ∈ o ((d.keyList.filterMap cap).filter (fun c => !pyIsDigit c)) ↔
        x ∈ (d.keyList.filterMap cap).filter (fun c => !pyIsDigit c))) := by
  refine ⟨?_, ?_, ?_⟩
  · intro h
    have hc : d.keyList.filterMap cap = [] := by
      apply List.filterMap_eq_nil_iff.mpr
      intro k hk
      exact h k hk
    simp [extract_index_set, hc]
  · intro h
    have hne : ((d.keyList.filterMap cap).filter pyIsDigit).map strToNat ≠ [] := by
      simpa using h
    refine ⟨by simp [extract_index_set, hne], ?_, ?_⟩
    · exact Finset.sort_sorted_lt _
    · intro n
      simp [sortedDedup, Finset.mem_sort, List.mem_toFinset]
  · intro h1 h2
    have he : ((d.keyList.filterMap cap).filter pyIsDigit).map strToNat = [] := by
      simp [h1]
    refine ⟨by simp [extract_index_set, he, h2], (ho _).1, fun x => (ho _).2 x⟩

/-- Witness for C2 at a concrete dictionary, pattern and set order. -/
theorem C2_extract_index_set_contract_witness :
    ValidOrder pyDedup ∧
    (((∀ k ∈ (Dict.keyList c2Dict), capNumBracket "components[" k = Option.none) →
      extract_index_set pyDedup (capNumBracket "components[") c2Dict = []) ∧
    ((c2Dict.keyList.filterMap (capNumBracket "components[")).filter pyIsDigit ≠ [] →
      extract_index_set pyDedup (capNumBracket "components[") c2Dict =
        (sortedDedup (((c2Dict.keyList.filterMap (capNumBracket "components[")).filter pyIsDigit).map strToNat)).map Idx.num ∧
      (sortedDedup (((c2Dict.keyList.filterMap (capNumBracket "components[")).filter pyIsDigit).map strToNat)).Sorted (· < ·) ∧
      (∀ n : Nat, n ∈ sortedDedup (((c2Dict.keyList.filterMap (capNumBracket "components[")).filter pyIsDigit).map strToNat) ↔
        n ∈ ((c2Dict.keyList.filterMap (capNumBracket "components[")).filter pyIsDigit).map strToNat)) ∧
    ((c2Dict.keyList.filterMap (capNumBracket "components[")).filter pyIsDigit = [] →
      (c2Dict.keyList.filterMap (capNumBracket "components[")).filter (fun c => !pyIsDigit c) ≠ [] →
      extract_index_set pyDedup (capNumBracket "components[") c2Dict =
        (pyDedup ((c2Dict.keyList.filterMap (capNumBracket "components[")).filter (fun c => !pyIsDigit c))).map Idx.str ∧
      (pyDedup ((c2Dict.keyList.filterMap (capNumBracket "components[")).filter (fun c => !pyIsDigit c))).Nodup ∧
      (∀ x, x ∈ pyDedup ((c2Dict.keyList.filterMap (capNumBracket "components[")).filter (fun c => !pyIsDigit c)) ↔
        x ∈ (c2Dict.keyList.filterMap (capNumBracket "components[")).filter (fun c => !pyIsDigit c)))) :=
  ⟨validOrder_pyDedup,
   C2_extract_index_set_contract pyDedup validOrder_pyDedup (capNumBracket "components[") c2Dict⟩

/-- C7 counterexample: the specification claims that AnnotationProperty
labels also produce subject-IRI, property-IRI, literal triples; but the
emission loop handles only the `Object Property` and `Datatype Property`
kinds, so an accumulated pair under an annotation label (here `details`)
produces no triple at all. -/
theorem C7_counterexample :
    graphTriples [("details", "P:details", "Annotation Property")] ["details"]
      [("details", PyVal.s "S", PyVal.s "V")] = .ok [] := by
  rfl

/-- C7 amended: for every property label in the catalog whose key set covers
the accumulator, ObjectProperty entries emit one IRI-IRI-IRI triple per
accumulated pair and DatatypeProperty entries emit one IRI-IRI-literal triple
per pair, while AnnotationProperty entries are skipped (their pairs emit no
triple). -/
theorem C7_amended_serialization (pm : List (String × String × String))
    (labels : List String) (contribs : List Contrib)
    (h : ∀ e ∈ pm, e.1 ∈ labels) :
    graphTriples pm labels contribs = .ok (pm.flatMap (fun e =>
      if e.2.2 = "Object Property" then
        (contribs.filter (fun c => c.1 == e.1)).map
          (fun c => Triple.obj c.2.1.pyStr e.2.1 c.2.2.pyStr)
      else if e.2.2 = "Datatype Property" then
        (contribs.filter (fun c => c.1 == e.1)).map
          (fun c => Triple.lit c.2.1.pyStr e.2.1 c.2.2)
      else [])) := by
  have main : ∀ (pm2 : List (String × String × String)) (acc : List Triple),
      (∀ e ∈ pm2, e.1 ∈ labels) →
      foldE (fun ts entry =>
        if entry.1 ∈ labels then
          let items := contribs.filter (fun c => c.1 == entry.1)
          if entry.2.2 = "Object Property" then
            .ok (ts ++ items.map (fun c => Triple.obj c.2.1.pyStr entry.2.1 c.2.2.pyStr))
          else if entry.2.2 = "Datatype Property" then
            .ok (ts ++ items.map (fun c => Triple.lit c.2.1.pyStr entry.2.1 c.2.2))
          else .ok ts
        else .error (.keyErr entry.1)) acc pm2 =
      .ok (acc ++ pm2.flatMap (fun e =>
        if e.2.2 = "Object Property" then
          (contribs.filter (fun c => c.1 == e.1)).map
            (fun c => Triple.obj c.2.1.pyStr e.2.1 c.2.2.pyStr)
        else if e.2.2 = "Datatype Property" then
          (contribs.filter (fun c => c.1 == e.1)).map
            (fun c => Triple.lit c.2.1.pyStr e.2.1 c.2.2)
        else [])) := by
    intro pm2
    induction pm2 with
    | nil => intro acc _; simp [foldE]
    | cons e t ih =>
      intro acc he
      have hem := he e (List.mem_cons_self _ _)
      have ht : ∀ x ∈ t, x.1 ∈ labels := fun x hx => he x (List.mem_cons_of_mem _ hx)
      by_cases h1 : e.2.2 = "Object Property"
      · simp only [foldE, List.foldl_cons, if_pos hem, if_pos h1]
        have := ih (acc ++ (contribs.filter (fun c => c.1 == e.1)).map
          (fun c => Triple.obj c.2.1.pyStr e.2.1 c.2.2.pyStr)) ht
        simp only [foldE] at this
        rw [this]
        simp [h1, List.append_assoc]
      · by_cases h2 : e.2.2 = "Datatype Property"
        · simp only [foldE, List.foldl_cons, if_pos hem, if_neg h1, if_pos h2]
          have := ih (acc ++ (contribs.filter (fun c => c.1 == e.1)).map
            (fun c => Triple.lit c.2.1.pyStr e.2.1 c.2.2)) ht
          simp only [foldE] at this
          rw [this]
          simp [h1, h2, List.append_assoc]
        · simp only [foldE, List.foldl_cons, if_pos hem, if_neg h1, if_neg h2]
          have := ih acc ht
          simp only [foldE] at this
          rw [this]
          simp [h1, h2]
  have := main pm [] h
  simpa [graphTriples] using this

/-- Witness for C7's amended theorem at a concrete catalog and accumulator
containing one entry of each property kind. -/
theorem C7_amended_serialization_witness :
    graphTriples
      [("has output", "P:hasOutput", "Object Property"),
       ("has text value", "P:htv", "Datatype Property"),
       ("details", "P:details", "Annotation Property")]
      ["has output", "has text value", "details"]
      [("has output", PyVal.s "A", PyVal.s "B"),
       ("has text value", PyVal.s "A", PyVal.s "v"),
       ("details", PyVal.s "A", PyVal.s "w")] =
      .ok [Triple.obj "A" "P:hasOutput" "B", Triple.lit "A" "P:htv" (PyVal.s "v")] :=
  by
  have := C7_amended_serialization
    [("has output", "P:hasOutput", "Object Property"),
     ("has text value", "P:htv", "Datatype Property"),
     ("details", "P:details", "Annotation Property")]
    ["has output", "has text value", "details"]
    [("has output", PyVal.s "A", PyVal.s "B"),
     ("has text value", PyVal.s "A", PyVal.s "v"),
     ("details", PyVal.s "A", PyVal.s "w")]
    (by decide)
  rw [this]
  rfl

/-- C5: for every reaction id (independently of any workups), successful
initialization mints exactly the four core instances named
`{EntityKind}#{reactionId}` in the `mds` namespace, asserts one `type` triple
per instance, and asserts the three baseline relationships: mixture
"is input of" reaction, environment "environs" reaction, reaction
"has output" crude product - and nothing else. -/
theorem C5_core_instances (o : Onto) (rid : String)
    (h1 : "is input of" ∈ instanceDictLabels o)
    (h2 : "environs" ∈ instanceDictLabels o)
    (h3 : "has output" ∈ instanceDictLabels o) :
    initialize_instance_dict (.ok o) rid =
      ({ labels := some (instanceDictLabels o),
         initContribs := [
          ("type", PyVal.s (mdsBase ++ ("ChemicalReaction#" ++ rid)),
            PyVal.s (o.classIri "ChemicalReaction")),
          ("type", PyVal.s (mdsBase ++ ("ReactionMixture#" ++ rid)),
            PyVal.s (o.classIri "ReactionMixture")),
          ("type", PyVal.s (mdsBase ++ ("ReactionEnvironment#" ++ rid)),
            PyVal.s (o.classIri "ReactionEnvironment")),
          ("type", PyVal.s (mdsBase ++ ("CrudeProduct#" ++ rid)),
            PyVal.s (o.classIri "CrudeProduct")),
          ("is input of", PyVal.s (mdsBase ++ ("ReactionMixture#" ++ rid)),
            PyVal.s (mdsBase ++ ("ChemicalReaction#" ++ rid))),
          ("environs", PyVal.s (mdsBase ++ ("ReactionEnvironment#" ++ rid)),
            PyVal.s (mdsBase ++ ("ChemicalReaction#" ++ rid))),
          ("has output", PyVal.s (mdsBase ++ ("ChemicalReaction#" ++ rid)),
            PyVal.s (mdsBase ++ ("CrudeProduct#" ++ rid)))],
         propMeta := some (propMetaOf o), unitMap := some (unit_mapping o),
         onto := some o,
         chemical_reaction := some (mintInst o mdsBase "ChemicalReaction" ("ChemicalReaction#" ++ rid)),
         reaction_mixture := some (mintInst o mdsBase "ReactionMixture" ("ReactionMixture#" ++ rid)),
         reaction_environment := some (mintInst o mdsBase "ReactionEnvironment" ("ReactionEnvironment#" ++ rid)),
         crude_product := some (mintInst o mdsBase "CrudeProduct" ("CrudeProduct#" ++ rid)) },
       Option.none) := by
  have htype : "type" ∈ instanceDictLabels o := by
    simp [instanceDictLabels]
  simp only [initialize_instance_dict, emitII, emit, mintInst, if_pos htype, if_pos h1,
    if_pos h2, if_pos h3]
  rw [listER_ok _ (by
    intro x hx
    simp only [List.mem_cons, List.not_mem_nil, or_false] at hx
    rcases hx with rfl | rfl | rfl | rfl | rfl | rfl | rfl <;> rfl)]
  simp

/-- Witness for C5 at the concrete demo ontology. -/
theorem C5_core_instances_witness :
    initialize_instance_dict (.ok demoOnto) "w5" =
      ({ labels := some (instanceDictLabels demoOnto),
         initContribs := [
          ("type", PyVal.s (mdsBase ++ ("ChemicalReaction#" ++ "w5")),
            PyVal.s (demoOnto.classIri "ChemicalReaction")),
          ("type", PyVal.s (mdsBase ++ ("ReactionMixture#" ++ "w5")),
            PyVal.s (demoOnto.classIri "ReactionMixture")),
          ("type", PyVal.s (mdsBase ++ ("ReactionEnvironment#" ++ "w5")),
            PyVal.s (demoOnto.classIri "ReactionEnvironment")),
          ("type", PyVal.s (mdsBase ++ ("CrudeProduct#" ++ "w5")),
            PyVal.s (demoOnto.classIri "CrudeProduct")),
          ("is input of", PyVal.s (mdsBase ++ ("ReactionMixture#" ++ "w5")),
            PyVal.s (mdsBase ++ ("ChemicalReaction#" ++ "w5"))),
          ("environs", PyVal.s (mdsBase ++ ("ReactionEnvironment#" ++ "w5")),
            PyVal.s (mdsBase ++ ("ChemicalReaction#" ++ "w5"))),
          ("has output", PyVal.s (mdsBase ++ ("ChemicalReaction#" ++ "w5")),
            PyVal.s (mdsBase ++ ("CrudeProduct#" ++ "w5")))],
         propMeta := some (propMetaOf demoOnto), unitMap := some (unit_mapping demoOnto),
         onto := some demoOnto,
         chemical_reaction := some (mintInst demoOnto mdsBase "ChemicalReaction" ("ChemicalReaction#" ++ "w5")),
         reaction_mixture := some (mintInst demoOnto mdsBase "ReactionMixture" ("ReactionMixture#" ++ "w5")),
         reaction_environment := some (mintInst demoOnto mdsBase "ReactionEnvironment" ("ReactionEnvironment#" ++ "w5")),
         crude_product := some (mintInst demoOnto mdsBase "CrudeProduct" ("CrudeProduct#" ++ "w5")) },
       Option.none) :=
  C5_core_instances demoOnto "w5" (by decide) (by decide) (by decide)

/-- The dictionary-building loop succeeds and returns the per-identifier
dictionaries and the row types when every row carries a `type` entry. -/
theorem gciBuild_ok (identifiers : List CompoundIdentifierMsg)
    (h : ∀ m ∈ identifiers, Dict.hasKey m.row "type" = true) :
    gciBuild identifiers =
      .ok (identifiers.map (fun m => (fieldsNone compoundIdentifierFields).updateMany m.row),
           identifiers.map (fun m => m.row.getD "type")) := by
  have main : ∀ (l : List CompoundIdentifierMsg) (acc : List Dict × List PyVal),
      (∀ m ∈ l, Dict.hasKey m.row "type" = true) →
      l.foldl gciStep (.ok acc) =
        .ok (acc.1 ++ l.map (fun m => (fieldsNone compoundIdentifierFields).updateMany m.row),
             acc.2 ++ l.map (fun m => m.row.getD "type")) := by
    intro l
    induction l with
    | nil => intro acc _; simp
    | cons m t ih =>
      intro acc hmt
      obtain ⟨v, hv⟩ := (Dict.hasKey_iff m.row "type").mp (hmt m (List.mem_cons_self _ _))
      have hD : Dict.getD m.row "type" = v := by
        simp [Dict.getD, hv]
      simp only [List.foldl_cons]
      rw [show gciStep (.ok acc) m =
        .ok (acc.1 ++ [(fieldsNone compoundIdentifierFields).updateMany m.row],
             acc.2 ++ [v]) from by simp [gciStep, hv]]
      rw [ih _ (fun x hx => hmt x (List.mem_cons_of_mem _ hx))]
      simp [hD]
  have := main identifiers ([], []) h
  simpa [gciBuild] using this

/-- C6: when an `INCHI_KEY` identifier is already present,
`generate_compound_identifiers` performs no derivation: the returned list is
exactly the original identifier dictionaries (nothing appended, only the
canonical-key tag written into each), and the returned canonical key is the
value of the (first) `INCHI_KEY` identifier already present. -/
theorem C6_inchi_key_short_circuits (chem : ChemTool)
    (identifiers : List CompoundIdentifierMsg)
    (htype : ∀ m ∈ identifiers, Dict.hasKey m.row "type" = true)
    (hnd : ∀ m ∈ identifiers, m.row.keyList.Nodup)
    (hkey : ∃ m ∈ identifiers, m.row.get? "type" = some (PyVal.s "INCHI_KEY")) :
    generate_compound_identifiers chem identifiers =
      .ok (((identifiers.map (fun m => (fieldsNone compoundIdentifierFields).updateMany m.row)).map
              (fun d => d.set "INCHI_KEY"
                (gciFirstValue (identifiers.map
                  (fun m => (fieldsNone compoundIdentifierFields).updateMany m.row)) "INCHI_KEY"))),
           gciFirstValue (identifiers.map
             (fun m => (fieldsNone compoundIdentifierFields).updateMany m.row)) "INCHI_KEY") ∧
    ((identifiers.map (fun m => (fieldsNone compoundIdentifierFields).updateMany m.row)).map
        (fun d => d.set "INCHI_KEY"
          (gciFirstValue (identifiers.map
            (fun m => (fieldsNone compoundIdentifierFields).updateMany m.row)) "INCHI_KEY"))).length =
      identifiers.length ∧
    (∃ d, (identifiers.map (fun m => (fieldsNone compoundIdentifierFields).updateMany m.row)).find?
        (fun d => d.getD "type" == PyVal.s "INCHI_KEY") = some d ∧
      d.getD "type" = PyVal.s "INCHI_KEY" ∧
      gciFirstValue (identifiers.map
        (fun m => (fieldsNone compoundIdentifierFields).updateMany m.row)) "INCHI_KEY" =
        d.getD "value") := by
  obtain ⟨m0, hm0, hv0⟩ := hkey
  have hget : ∀ m ∈ identifiers,
      Dict.get? ((fieldsNone compoundIdentifierFields).updateMany m.row) "type" =
        m.row.get? "type" :=
    fun m hm => Dict.get?_updateMany _ _ _ (htype m hm) (hnd m hm)
  have hcontains :
      (identifiers.map (fun m => m.row.getD "type")).contains (PyVal.s "INCHI_KEY") = true := by
    have : PyVal.s "INCHI_KEY" ∈ identifiers.map (fun m => m.row.getD "type") := by
      refine List.mem_map.mpr ⟨m0, hm0, ?_⟩
      simp [Dict.getD, hv0]
    exact List.elem_eq_true_of_mem this
  have hfind : ∃ d, (identifiers.map
      (fun m => (fieldsNone compoundIdentifierFields).updateMany m.row)).find?
        (fun d => d.getD "type" == PyVal.s "INCHI_KEY") = some d := by
    have hsome : ((identifiers.map
        (fun m => (fieldsNone compoundIdentifierFields).updateMany m.row)).find?
          (fun d => d.getD "type" == PyVal.s "INCHI_KEY")).isSome := by
      rw [List.find?_isSome]
      refine ⟨(fieldsNone compoundIdentifierFields).updateMany m0.row,
        List.mem_map.mpr ⟨m0, hm0, rfl⟩, ?_⟩
      have := hget m0 hm0
      simp [Dict.getD, this, hv0]
    exact Option.isSome_iff_exists.mp hsome
  obtain ⟨d0, hd0⟩ := hfind
  have hd0p := List.find?_some hd0
  have hd0t : d0.getD "type" = PyVal.s "INCHI_KEY" := by
    simpa using hd0p
  refine ⟨?_, by simp, ⟨d0, hd0, hd0t, by simp [gciFirstValue, hd0]⟩⟩
  rw [generate_compound_identifiers, gciBuild_ok identifiers htype]
  simp only [hcontains]
  rfl

/-- Witness for C6 at a concrete identifier list. -/
theorem C6_inchi_key_short_circuits_witness :
    generate_compound_identifiers rejectingChem
      [⟨[("type", PyVal.s "INCHI_KEY"), ("value", PyVal.s "K1")]⟩] =
      .ok ((([⟨[("type", PyVal.s "INCHI_KEY"), ("value", PyVal.s "K1")]⟩] :
              List CompoundIdentifierMsg).map
              (fun m => (fieldsNone compoundIdentifierFields).updateMany m.row)).map
              (fun d => d.set "INCHI_KEY"
                (gciFirstValue (([⟨[("type", PyVal.s "INCHI_KEY"), ("value", PyVal.s "K1")]⟩] :
                    List CompoundIdentifierMsg).map
                  (fun m => (fieldsNone compoundIdentifierFields).updateMany m.row)) "INCHI_KEY")),
           gciFirstValue (([⟨[("type", PyVal.s "INCHI_KEY"), ("value", PyVal.s "K1")]⟩] :
              List CompoundIdentifierMsg).map
             (fun m => (fieldsNone compoundIdentifierFields).updateMany m.row)) "INCHI_KEY") ∧
    ((([⟨[("type", PyVal.s "INCHI_KEY"), ("value", PyVal.s "K1")]⟩] :
        List CompoundIdentifierMsg).map
        (fun m => (fieldsNone compoundIdentifierFields).updateMany m.row)).map
        (fun d => d.set "INCHI_KEY"
          (gciFirstValue (([⟨[("type", PyVal.s "INCHI_KEY"), ("value", PyVal.s "K1")]⟩] :
              List CompoundIdentifierMsg).map
            (fun m => (fieldsNone compoundIdentifierFields).updateMany m.row)) "INCHI_KEY"))).length =
      ([⟨[("type", PyVal.s "INCHI_KEY"), ("value", PyVal.s "K1")]⟩] :
        List CompoundIdentifierMsg).length ∧
    (∃ d, (([⟨[("type", PyVal.s "INCHI_KEY"), ("value", PyVal.s "K1")]⟩] :
          List CompoundIdentifierMsg).map
          (fun m => (fieldsNone compoundIdentifierFields).updateMany m.row)).find?
        (fun d => d.getD "type" == PyVal.s "INCHI_KEY") = some d ∧
      d.getD "type" = PyVal.s "INCHI_KEY" ∧
      gciFirstValue (([⟨[("type", PyVal.s "INCHI_KEY"), ("value", PyVal.s "K1")]⟩] :
          List CompoundIdentifierMsg).map
        (fun m => (fieldsNone compoundIdentifierFields).updateMany m.row)) "INCHI_KEY" =
        d.getD "value") :=
  C6_inchi_key_short_circuits rejectingChem
    [⟨[("type", PyVal.s "INCHI_KEY"), ("value", PyVal.s "K1")]⟩]
    (by decide) (by decide) ⟨_, List.mem_cons_self _ _, by decide⟩

theorem foldE_error {α β : Type} (f : β → α → Except Err β) (l : List α) (e : Err) :
    (l.foldl (fun acc a =>
      match acc with
      | Except.error e2 => (Except.error e2 : Except Err β)
      | Except.ok b => f b a) (Except.error e)) = Except.error e := by
  induction l with
  | nil => rfl
  | cons a t ih => simpa using ih

theorem foldE_last_prop {α β : Type} (f : β → α → Except Err β) (P : β → Prop)
    (hstep : ∀ b a r, f b a = .ok r → P r) :
    ∀ (l : List α) (b r : β), foldE f b l = .ok r → (l ≠ [] ∨ P b) → P r := by
  intro l
  induction l with
  | nil =>
    intro b r h hP
    rcases hP with hne | hb
    · exact absurd rfl hne
    · simp only [foldE, List.foldl_nil] at h
      cases h
      exact hb
  | cons a t ih =>
    intro b r h _
    simp only [foldE, List.foldl_cons] at h
    rcases ha : f b a with e | b1
    · rw [ha] at h
      rw [foldE_error] at h
      cases h
    · rw [ha] at h
      exact ih b1 r h (Or.inr (hstep b a b1 ha))

theorem get?_set_preserve (d : Dict) (k k2 : String) (v w : PyVal)
    (h : d.get? k = some w) (hne : k ≠ k2) : (d.set k2 v).get? k = some w := by
  rw [Dict.get?_set]
  simp [hne, h]

/-- A successful nonempty workup-component loop leaves `InputKey` at the
constant `"workup_0"`. -/
theorem flattenWorkupComponents_input_key (chem : ChemTool) (d r : Dict)
    (comps : List (Nat × ComponentMsg)) (hne : comps ≠ [])
    (h : flattenWorkupComponents chem d comps = .ok r) :
    r.get? "InputKey" = some (PyVal.s "workup_0") := by
  refine foldE_last_prop _
    (fun r2 => Dict.get? r2 "InputKey" = some (PyVal.s "workup_0")) ?_ comps d r h (Or.inl hne)
  intro b ic r2 hr
  rcases hg : generate_compound_identifiers chem ic.2.identifiers with e | p
  · rw [hg] at hr
    cases hr
  · rw [hg] at hr
    cases hr
    rw [Dict.get?_set]
    simp only [if_pos rfl]
    rfl

/-- C9: for every workup step with input components, the flattened workup
dictionary's `InputKey` field is the constant string `"workup_0"` regardless
of the step's position `iw.1` in the workup list; consequently every workup
component instance minted by `_extract_components` from such a dictionary
carries the same `"workup_0"` context segment in its name. -/
theorem C9_workup_input_key_constant (chem : ChemTool) (rid : String)
    (iw : Nat × WorkupMsg) (d : Dict)
    (h1 : iw.2.inputPresent = true) (h2 : iw.2.inputComponents ≠ [])
    (h3 : flattenWorkup chem rid iw = .ok d) :
    d.get? "InputKey" = some (PyVal.s "workup_0") ∧
    (∀ (onto : Onto) (cl : Dict) (i : Idx),
      cl.get? "InputKey" = some (PyVal.s "workup_0") →
      ∃ t : String,
        (componentInstE onto rid cl "workup" "input.components" i).map
          (fun p => p.1.iri) =
          .ok (mdsBase ++ ("Component#" ++ rid ++ "_" ++ "workup_0" ++ t))) := by
  constructor
  · have henum : iw.2.inputComponents.enum ≠ [] := by
      simpa using h2
    simp only [flattenWorkup, h1, if_pos] at h3
    rcases hf : flattenWorkupComponents chem
        ((Dict.updateMany (Dict.updateMany
          [("reactionID", PyVal.s rid), ("Index", PyVal.i iw.1)]
          (fieldsNone workupFields)) iw.2.row).set "input" (PyVal.b true))
        iw.2.inputComponents.enum with e | d2
    · rw [hf] at h3
      cases h3
    · rw [hf] at h3
      have hd2 := flattenWorkupComponents_input_key chem _ _ _ henum hf
      cases h3
      have pres : ∀ (b : Dict) (c : Bool) (k : String) (v : PyVal),
          b.get? "InputKey" = some (PyVal.s "workup_0") → ("InputKey" : String) ≠ k →
          (if c then b.set k v else b).get? "InputKey" = some (PyVal.s "workup_0") := by
        intro b c k v hb hk
        cases c
        · simpa using hb
        · simpa using get?_set_preserve b "InputKey" k v _ hb hk
      have s3 : (if iw.2.amountPresent then
          ((d2.set "amount" (PyVal.b true)).set "amount.type" (optVal iw.2.amountKind))
        else d2).get? "InputKey" = some (PyVal.s "workup_0") := by
        cases hc : iw.2.amountPresent
        · simpa using hd2
        · simp only [if_pos]
          exact get?_set_preserve _ _ _ _ _
            (get?_set_preserve _ _ _ _ _ hd2 (by decide)) (by decide)
      have s4 := pres _ iw.2.duration "duration" (PyVal.b true) s3 (by decide)
      have s5 := pres _ iw.2.temperature "temperature" (PyVal.b true) s4 (by decide)
      exact pres _ iw.2.stirring "stirring" (PyVal.b true) s5 (by decide)
  · intro onto cl i hik
    simp only [componentInstE]
    rw [hik]
    simp only [mintInst, Except.map, PyVal.pyStr, String.append_assoc, decide_True,
      Bool.or_true, if_true]
    by_cases hk : cl.hasKey ("input.components" ++ ("[" ++ (i.fmt ++ "].INCHI_KEY"))) = true
    · refine ⟨"_" ++ (cl.getD ("input.components" ++ ("[" ++ (i.fmt ++ "].INCHI_KEY")))).pyStr, ?_⟩
      simp only [hk, if_true, PyVal.pyStr, String.append_assoc]
    · refine ⟨"_component_" ++ i.fmt, ?_⟩
      simp only [hk, if_false, Bool.false_eq_true, PyVal.pyStr, String.append_assoc]

/-- Witness for C9 at a concrete workup step in list position 3. -/
theorem C9_workup_input_key_constant_witness :
    Dict.get? c9Dict "InputKey" = some (PyVal.s "workup_0") ∧
    (∀ (onto : Onto) (cl : Dict) (i : Idx),
      cl.get? "InputKey" = some (PyVal.s "workup_0") →
      ∃ t : String,
        (componentInstE onto "r9" cl "workup" "input.components" i).map
          (fun p => p.1.iri) =
          .ok (mdsBase ++ ("Component#" ++ "r9" ++ "_" ++ "workup_0" ++ t))) :=
  C9_workup_input_key_constant rejectingChem "r9" (3, c9Workup) c9Dict rfl
    (by simp [c9Workup]) (by rfl)

/-- C10: whenever the serialization step raises - because the requested
format is unsupported or because the serializer itself fails -
`generate_data_graph` catches the exception and returns `None` instead of
raising, and `extract_reaction` consequently still appends the reaction to
the success list (not the error list) although no artifact was written. -/
theorem C10_serialization_failure_swallowed (st : KGInit) (pc : List Contrib)
    (fmt dsid rid : String) (writeRes : String → Except String Unit)
    (h : (fmt ≠ "turtle" ∧ fmt ≠ "json-ld") ∨ (∀ nm, ∃ m, writeRes nm = .error m)) :
    generate_data_graph st pc fmt dsid rid writeRes = Option.none ∧
    (∀ (chem : ChemTool) (ord : List String → List String)
       (loadOnto : Except String Onto) (dsid2 rid2 : String) (msg : ReactionMsg)
       (fs : FlatState),
      reactionKGId msg = .ok rid2 →
      generate_reaction chem rid2 msg = .ok fs →
      processReaction chem ord loadOnto fmt writeRes dsid2 msg = .ok
        (generate_data_graph (generate_instances loadOnto ord fs).st
          (generate_instances loadOnto ord fs).contribs fmt dsid2 rid2 writeRes) ∧
      generate_data_graph (generate_instances loadOnto ord fs).st
        (generate_instances loadOnto ord fs).contribs fmt dsid2 rid2 writeRes =
        Option.none ∧
      extract_reaction chem ord loadOnto fmt writeRes dsid2 [msg] =
        ([[dsid2, msg.reaction_id]], [])) := by
  have gnone : ∀ (st2 : KGInit) (pc2 : List Contrib) (dsid2 rid2 : String),
      generate_data_graph st2 pc2 fmt dsid2 rid2 writeRes = Option.none := by
    intro st2 pc2 dsid2 rid2
    unfold generate_data_graph
    rcases st2.propMeta with _ | pm
    · rfl
    · rcases st2.labels with _ | labels
      · rfl
      · rcases hg : graphTriples pm labels (st2.initContribs ++ pc2) with e | ts
        · simp [hg]
        · simp only [hg]
          rcases h with ⟨hf1, hf2⟩ | hw
          · simp [hf1, hf2]
          · by_cases hfmt : fmt = "turtle"
            · obtain ⟨m, hm⟩ := hw ("mds_dataset-" ++ dsid2 ++ "_reaction-" ++ rid2 ++ ".ttl")
              simp [hfmt, hm]
            · by_cases hfmt2 : fmt = "json-ld"
              · obtain ⟨m, hm⟩ := hw ("mds_dataset-" ++ dsid2 ++ "_reaction-" ++ rid2 ++ ".jsonld")
                simp [hfmt, hfmt2, hm]
              · simp [hfmt, hfmt2]
  refine ⟨gnone st pc dsid rid, ?_⟩
  intro chem ord loadOnto dsid2 rid2 msg fs hid hgen
  have hpr : processReaction chem ord loadOnto fmt writeRes dsid2 msg = .ok
      (generate_data_graph (generate_instances loadOnto ord fs).st
        (generate_instances loadOnto ord fs).contribs fmt dsid2 rid2 writeRes) := by
    unfold processReaction
    rw [hid]
    simp only [Except.bind, bind]
    rw [hgen]
    rfl
  refine ⟨hpr, gnone _ _ _ _, ?_⟩
  unfold extract_reaction
  simp only [List.foldl_cons, List.foldl_nil]
  rw [hpr]
  simp

/-- Witness for C10 at the demo environment with an unsupported RDF/XML
format request. -/
theorem C10_serialization_failure_swallowed_witness :
    generate_data_graph {} [] "xml" "ds" "r1" okWrite = Option.none ∧
    (∀ (chem : ChemTool) (ord : List String → List String)
       (loadOnto : Except String Onto) (dsid2 rid2 : String) (msg : ReactionMsg)
       (fs : FlatState),
      reactionKGId msg = .ok rid2 →
      generate_reaction chem rid2 msg = .ok fs →
      processReaction chem ord loadOnto "xml" okWrite dsid2 msg = .ok
        (generate_data_graph (generate_instances loadOnto ord fs).st
          (generate_instances loadOnto ord fs).contribs "xml" dsid2 rid2 okWrite) ∧
      generate_data_graph (generate_instances loadOnto ord fs).st
        (generate_instances loadOnto ord fs).contribs "xml" dsid2 rid2 okWrite =
        Option.none ∧
      extract_reaction chem ord loadOnto "xml" okWrite dsid2 [msg] =
        ([[dsid2, msg.reaction_id]], [])) :=
  C10_serialization_failure_swallowed {} [] "xml" "ds" "r1" okWrite
    (Or.inl (by decide))

theorem runPasses_spec (l : List (String × ER)) (acc : List Contrib × List String) :
    runPasses acc l =
      (acc.1 ++ (l.map (fun q => q.2.1)).flatten,
       acc.2 ++ l.filterMap (fun q =>
         match q.2.2 with
         | some _ => some q.1
         | Option.none => Option.none)) := by
  induction l generalizing acc with
  | nil => simp [runPasses]
  | cons q t ih =>
    rw [show runPasses acc (q :: t) = runPasses (tryPass q.1 acc q.2) t from rfl, ih]
    rcases hq : q.2.2 with _ | e <;>
      simp [tryPass, hq, List.append_assoc]

/-- C3: `generate_instances` runs the seven section passes in the fixed
order identifiers, inputs, conditions, notes, workups, outcomes, setup; a
pass that raises is caught and logged (its name joins the error log) and the
appends of every pass - earlier or later, failing or not - still accumulate:
the final assertion list is the concatenation of every pass's own emissions,
independent of which passes raised.  The second conjunct exhibits the spec's
differential scenario: a raise inside the outcomes pass is logged while the
notes, workups and setup passes still contribute their assertions. -/
theorem C3_pass_order_and_isolation :
    (∀ (loadOnto : Except String Onto) (ord : List String → List String)
       (fs : FlatState),
      generate_instances loadOnto ord fs =
        { st := (initialize_instance_dict loadOnto fs.rid).1,
          contribs := (([
            ("identifiers", guardER (!fs.reaction_identifiers.isEmpty)
              (process_reaction_identifiers (initialize_instance_dict loadOnto fs.rid).1
                fs.rid fs.reaction_identifiers)),
            ("inputs", guardER (!fs.reaction_inputs.isEmpty)
              (process_reaction_inputs (initialize_instance_dict loadOnto fs.rid).1
                ord fs.rid fs.reaction_inputs)),
            ("conditions", guardER (!fs.reaction_conditions.isEmpty)
              (process_reaction_conditions (initialize_instance_dict loadOnto fs.rid).1
                ord fs.rid fs.reaction_conditions)),
            ("notes", guardER (!fs.reaction_notes.isEmpty)
              (process_reaction_notes (initialize_instance_dict loadOnto fs.rid).1
                fs.reaction_notes)),
            ("workups", guardER (!fs.reaction_workups.isEmpty)
              (process_reaction_workups (initialize_instance_dict loadOnto fs.rid).1
                ord fs.rid fs.reaction_workups)),
            ("outcomes", guardER (!fs.reaction_outcomes.isEmpty)
              (process_reaction_outcomes (initialize_instance_dict loadOnto fs.rid).1
                ord fs.rid fs.reaction_outcomes)),
            ("setup", guardER (!fs.reaction_setup.isEmpty)
              (process_reaction_setup (initialize_instance_dict loadOnto fs.rid).1
                fs.rid fs.reaction_setup))] : List (String × ER)).map
              (fun q => q.2.1)).flatten,
          errlog := (match (initialize_instance_dict loadOnto fs.rid).2 with
            | some _ => ["initialize"]
            | Option.none => []) ++
            (([
            ("identifiers", guardER (!fs.reaction_identifiers.isEmpty)
              (process_reaction_identifiers (initialize_instance_dict loadOnto fs.rid).1
                fs.rid fs.reaction_identifiers)),
            ("inputs", guardER (!fs.reaction_inputs.isEmpty)
              (process_reaction_inputs (initialize_instance_dict loadOnto fs.rid).1
                ord fs.rid fs.reaction_inputs)),
            ("conditions", guardER (!fs.reaction_conditions.isEmpty)
              (process_reaction_conditions (initialize_instance_dict loadOnto fs.rid).1
                ord fs.rid fs.reaction_conditions)),
            ("notes", guardER (!fs.reaction_notes.isEmpty)
              (process_reaction_notes (initialize_instance_dict loadOnto fs.rid).1
                fs.reaction_notes)),
            ("workups", guardER (!fs.reaction_workups.isEmpty)
              (process_reaction_workups (initialize_instance_dict loadOnto fs.rid).1
                ord fs.rid fs.reaction_workups)),
            ("outcomes", guardER (!fs.reaction_outcomes.isEmpty)
              (process_reaction_outcomes (initialize_instance_dict loadOnto fs.rid).1
                ord fs.rid fs.reaction_outcomes)),
            ("setup", guardER (!fs.reaction_setup.isEmpty)
              (process_reaction_setup (initialize_instance_dict loadOnto fs.rid).1
                fs.rid fs.reaction_setup))] : List (String × ER)).filterMap
              (fun q => match q.2.2 with
                | some _ => some q.1
                | Option.none => Option.none)) }) ∧
    (generate_instances (.ok demoOnto) pyDedup c3FS).errlog = ["outcomes"] ∧
    ("is heterogeneous", PyVal.s (mdsBase ++ ("ChemicalReaction#" ++ "r1")), PyVal.b true) ∈
      (generate_instances (.ok demoOnto) pyDedup c3FS).contribs ∧
    ("is input of", PyVal.s (mdsBase ++ ("CrudeProduct#" ++ "r1")),
      PyVal.s (mdsBase ++ ("ReactionWorkup#" ++ "r1" ++ "_" ++ "None" ++ "_" ++ "0"))) ∈
      (generate_instances (.ok demoOnto) pyDedup c3FS).contribs ∧
    ("precedes", PyVal.s (mdsBase ++ ("ReactionSetup#" ++ "r1")),
      PyVal.s (mdsBase ++ ("ChemicalReaction#" ++ "r1"))) ∈
      (generate_instances (.ok demoOnto) pyDedup c3FS).contribs := by
  refine ⟨?_, by decide, by decide, by decide, by decide⟩
  intro loadOnto ord fs
  have h0 : generate_instances loadOnto ord fs =
      { st := (initialize_instance_dict loadOnto fs.rid).1,
        contribs := (runPasses ([],
          match (initialize_instance_dict loadOnto fs.rid).2 with
          | some _ => ["initialize"]
          | Option.none => []) [
            ("identifiers", guardER (!fs.reaction_identifiers.isEmpty)
              (process_reaction_identifiers (initialize_instance_dict loadOnto fs.rid).1
                fs.rid fs.reaction_identifiers)),
            ("inputs", guardER (!fs.reaction_inputs.isEmpty)
              (process_reaction_inputs (initialize_instance_dict loadOnto fs.rid).1
                ord fs.rid fs.reaction_inputs)),
            ("conditions", guardER (!fs.reaction_conditions.isEmpty)
              (process_reaction_conditions (initialize_instance_dict loadOnto fs.rid).1
                ord fs.rid fs.reaction_conditions)),
            ("notes", guardER (!fs.reaction_notes.isEmpty)
              (process_reaction_notes (initialize_instance_dict loadOnto fs.rid).1
                fs.reaction_notes)),
            ("workups", guardER (!fs.reaction_workups.isEmpty)
              (process_reaction_workups (initialize_instance_dict loadOnto fs.rid).1
                ord fs.rid fs.reaction_workups)),
            ("outcomes", guardER (!fs.reaction_outcomes.isEmpty)
              (process_reaction_outcomes (initialize_instance_dict loadOnto fs.rid).1
                ord fs.rid fs.reaction_outcomes)),
            ("setup", guardER (!fs.reaction_setup.isEmpty)
              (process_reaction_setup (initialize_instance_dict loadOnto fs.rid).1
                fs.rid fs.reaction_setup))]).1,
        errlog := (runPasses ([],
          match (initialize_instance_dict loadOnto fs.rid).2 with
          | some _ => ["initialize"]
          | Option.none => []) [
            ("identifiers", guardER (!fs.reaction_identifiers.isEmpty)
              (process_reaction_identifiers (initialize_instance_dict loadOnto fs.rid).1
                fs.rid fs.reaction_identifiers)),
            ("inputs", guardER (!fs.reaction_inputs.isEmpty)
              (process_reaction_inputs (initialize_instance_dict loadOnto fs.rid).1
                ord fs.rid fs.reaction_inputs)),
            ("conditions", guardER (!fs.reaction_conditions.isEmpty)
              (process_reaction_conditions (initialize_instance_dict loadOnto fs.rid).1
                ord fs.rid fs.reaction_conditions)),
            ("notes", guardER (!fs.reaction_notes.isEmpty)
              (process_reaction_notes (initialize_instance_dict loadOnto fs.rid).1
                fs.reaction_notes)),
            ("workups", guardER (!fs.reaction_workups.isEmpty)
              (process_reaction_workups (initialize_instance_dict loadOnto fs.rid).1
                ord fs.rid fs.reaction_workups)),
            ("outcomes", guardER (!fs.reaction_outcomes.isEmpty)
              (process_reaction_outcomes (initialize_instance_dict loadOnto fs.rid).1
                ord fs.rid fs.reaction_outcomes)),
            ("setup", guardER (!fs.reaction_setup.isEmpty)
              (process_reaction_setup (initialize_instance_dict loadOnto fs.rid).1
                fs.rid fs.reaction_setup))]).2 } := rfl
  rw [h0]
  simp only [runPasses_spec]
  simp

/-- C4 counterexample: the specification claims an ontology-load failure is
propagated to the caller and the reaction lands in the error list.  Run
concretely, the pipeline of a minimal reaction under a failing loader raises
nothing (`.ok`), produces no artifact (`none`), and the dataset loop files the
reaction in the success list with an empty error list. -/
theorem C4_counterexample :
    processReaction rejectingChem pyDedup (.error "load failed") "turtle" okWrite
      "ds" c4Rxn = .ok Option.none ∧
    extract_reaction rejectingChem pyDedup (.error "load failed") "turtle" okWrite
      "ds" [c4Rxn] = ([["ds", "ord-r4"]], []) :=
  ⟨rfl, rfl⟩

/-- C4 (amended): an ontology-load failure is NOT propagated: `generate_instances`
catches it (the error log opens with the `initialize` entry), every later
stage follows through, the serialization stage returns `None` so no artifact
is produced, and the caller records the reaction in the success list and
continues - the error list stays empty. -/
theorem C4_ontology_load_failure_swallowed
    (chem : ChemTool) (ord : List String → List String)
    (fmt dataset_id e : String) (writeRes : String → Except String Unit)
    (msg : ReactionMsg) (rid : String) (fs : FlatState)
    (h1 : reactionKGId msg = .ok rid)
    (h2 : generate_reaction chem rid msg = .ok fs) :
    processReaction chem ord (.error e) fmt writeRes dataset_id msg =
      .ok Option.none ∧
    (generate_instances (.error e) ord fs).errlog.head? = some "initialize" ∧
    extract_reaction chem ord (.error e) fmt writeRes dataset_id [msg] =
      ([[dataset_id, msg.reaction_id]], []) := by
  have hp : processReaction chem ord (.error e) fmt writeRes dataset_id msg =
      .ok Option.none := by
    simp only [processReaction, h1, h2, Except.bind, bind]
    rfl
  refine ⟨hp, ?_, ?_⟩
  · exact generate_instances_errlog_init (.error e) ord fs rfl
  · simp [extract_reaction, hp]

/-- Closed instantiation of the amended C4 theorem at the minimal reaction. -/
theorem C4_ontology_load_failure_swallowed_witness :
    reactionKGId c4Rxn = .ok "r4" ∧
    generate_reaction rejectingChem "r4" c4Rxn = .ok c4FS ∧
    (processReaction rejectingChem pyDedup (.error "no onto") "turtle" okWrite
        "myds" c4Rxn = .ok Option.none ∧
      (generate_instances (.error "no onto") pyDedup c4FS).errlog.head? =
        some "initialize" ∧
      extract_reaction rejectingChem pyDedup (.error "no onto") "turtle" okWrite
        "myds" [c4Rxn] = ([["myds", "ord-r4"]], [])) :=
  ⟨rfl, rfl,
   C4_ontology_load_failure_swallowed rejectingChem pyDedup "turtle" "myds"
     "no onto" okWrite c4Rxn "r4" c4FS rfl rfl⟩

/-- C8 counterexample: the specification claims two runs of the full pipeline
on the same record and ontology always yield identical triple sets.  The
`analyses` map is walked in `list(set(...))` iteration order, and the stale
`analysis_type` variable makes the emitted triples depend on that order: under
two equally valid set orders the concrete record `c8Rxn` (two typed analyses
and one untyped one) serializes to different triple sets. -/
theorem C8_counterexample :
    ValidOrder pyDedup ∧ ValidOrder pyDedupRev ∧
    (processReaction rejectingChem pyDedup (.ok demoOnto) "turtle" okWrite
        "ds" c8Rxn).toOption.map (Option.map (fun p => p.1.toFinset)) ≠
      (processReaction rejectingChem pyDedupRev (.ok demoOnto) "turtle" okWrite
        "ds" c8Rxn).toOption.map (Option.map (fun p => p.1.toFinset)) :=
  ⟨validOrder_pyDedup, validOrder_pyDedupRev, by decide⟩

/-- C8 (amended): the pipeline is deterministic except for the `analyses`
set-iteration: every other extracted index set captures digit runs only and
is sorted, so when no outcome row carries an `analyses` mapping the whole
run - instances, names, triples and artifact - is identical under any two
valid set-iteration orders. -/
theorem C8_triple_set_order_invariance
    (chem : ChemTool) (o1 o2 : List String → List String)
    (ho1 : ValidOrder o1) (ho2 : ValidOrder o2)
    (loadOnto : Except String Onto) (fmt dataset_id : String)
    (writeRes : String → Except String Unit)
    (msg : ReactionMsg) (rid : String) (fs : FlatState)
    (h1 : reactionKGId msg = .ok rid)
    (h2 : generate_reaction chem rid msg = .ok fs)
    (ha : ∀ item ∈ fs.reaction_outcomes,
      (Dict.getD item "analyses" == PyVal.b true) = false) :
    generate_instances loadOnto o1 fs = generate_instances loadOnto o2 fs ∧
    processReaction chem o1 loadOnto fmt writeRes dataset_id msg =
      processReaction chem o2 loadOnto fmt writeRes dataset_id msg := by
  have hg := generate_instances_ord o1 o2 loadOnto fs ha
  refine ⟨hg, ?_⟩
  simp only [processReaction, h1, h2, Except.bind, bind, hg]

/-- Closed instantiation of the amended C8 theorem under the two opposite
set-iteration orders. -/
theorem C8_triple_set_order_invariance_witness :
    ValidOrder pyDedup ∧ ValidOrder pyDedupRev ∧
    (generate_instances (.ok demoOnto) pyDedup c4FS =
        generate_instances (.ok demoOnto) pyDedupRev c4FS ∧
      processReaction rejectingChem pyDedup (.ok demoOnto) "turtle" okWrite
          "ds2" c4Rxn =
        processReaction rejectingChem pyDedupRev (.ok demoOnto) "turtle" okWrite
          "ds2" c4Rxn) :=
  ⟨validOrder_pyDedup, validOrder_pyDedupRev,
   C8_triple_set_order_invariance rejectingChem pyDedup pyDedupRev
     validOrder_pyDedup validOrder_pyDedupRev (.ok demoOnto) "turtle" "ds2"
     okWrite c4Rxn "r4" c4FS rfl rfl (by simp [c4FS])⟩

end RxnRdf
